import Mathlib

/-!
# go-baa/log: the leveled logger of log.go

A shallow embedding of `log.go`. A logger value records the threshold, the
caller depth, the flag bitset, the lines handed so far to the wrapped standard
logger (the sink) and the lines waiting in the channel `buf`.

What `log.go` uses without declaring it is a parameter:

* the level constants `LOG_OFF` .. `LOG_PRINT` and the table `levelNames`
  (structure `Levels`);
* `runtime.Caller` and `fmt.Sprintf` with a caller-supplied format
  (structure `Runtime`).

Go strings are modelled by `String`; the only byte-level operation of the
source, cutting a path after its last `/`, gives the same text on characters.
-/

namespace Log

/-! ## Levels -/

/-- Go type `LogLevel`: an integer. -/
abbrev LogLevel := Int

/-- Level constants and name table that `log.go` refers to; they are declared
outside `log.go`, so every definition below takes them as a parameter. -/
structure Levels where
  LOG_OFF : LogLevel
  LOG_PANIC : LogLevel
  LOG_FATAL : LogLevel
  LOG_ERROR : LogLevel
  LOG_WARN : LogLevel
  LOG_INFO : LogLevel
  LOG_DEBUG : LogLevel
  LOG_PRINT : LogLevel
  levelNames : LogLevel → Option String

/-- Modelled from the spec: the integer encoding of the levels, `OFF = 0` and
`OFF < PANIC < FATAL < ERROR < WARN < INFO < DEBUG < PRINT` (section 4.2); the
declaration of the constants is not part of `log.go`. -/
def Levels.Ordered (L : Levels) : Prop :=
  L.LOG_OFF = 0 ∧ L.LOG_OFF < L.LOG_PANIC ∧ L.LOG_PANIC < L.LOG_FATAL ∧
  L.LOG_FATAL < L.LOG_ERROR ∧ L.LOG_ERROR < L.LOG_WARN ∧ L.LOG_WARN < L.LOG_INFO ∧
  L.LOG_INFO < L.LOG_DEBUG ∧ L.LOG_DEBUG < L.LOG_PRINT

instance (L : Levels) : Decidable L.Ordered :=
  inferInstanceAs (Decidable (_ ∧ _ ∧ _ ∧ _ ∧ _ ∧ _ ∧ _ ∧ _))

/-- Modelled from the spec: a level table with the encoding of section 4.2 on
consecutive integers and the display names the spec prints (`[WARN]`); the
print tier and `OFF` have no name. The declaration is not part of `log.go`. -/
def stdLevels : Levels where
  LOG_OFF := 0
  LOG_PANIC := 1
  LOG_FATAL := 2
  LOG_ERROR := 3
  LOG_WARN := 4
  LOG_INFO := 5
  LOG_DEBUG := 6
  LOG_PRINT := 7
  levelNames := fun l =>
    if l = 1 then some "PANIC" else if l = 2 then some "FATAL"
    else if l = 3 then some "ERROR" else if l = 4 then some "WARN"
    else if l = 5 then some "INFO" else if l = 6 then some "DEBUG" else none

/-- The seven severities a call can carry, in increasing integer value. -/
def Levels.severities (L : Levels) : List LogLevel :=
  [L.LOG_PANIC, L.LOG_FATAL, L.LOG_ERROR, L.LOG_WARN, L.LOG_INFO, L.LOG_DEBUG, L.LOG_PRINT]

/-- The eight values a threshold is set to: `OFF` and the seven severities. -/
def Levels.thresholds (L : Levels) : List LogLevel :=
  L.LOG_OFF :: L.severities

/-! ## Flags (values of the standard library package `log`) -/

def Ldate : Int := 1
def Ltime : Int := 2
def Lmicroseconds : Int := 4
def Llongfile : Int := 8
def Lshortfile : Int := 16
def LUTC : Int := 32
def LstdFlags : Int := 3

/-- Go `Flags()`. -/
def Flags : Int := LstdFlags

/-! ## Values and the `fmt` functions -/

/-- An argument of a logging call (`interface{}`), by what `fmt` consults when
it prints it with the default verb: its `%v` text and whether its kind is
string. -/
structure Value where
  text : String
  isString : Bool
deriving DecidableEq, Repr

/-- A Go string passed as an argument: printed as itself. -/
def Value.ofString (s : String) : Value := ⟨s, true⟩

/-- Go `strings.Join(elems, sep)`. -/
def Join (elems : List String) (sep : String) : String :=
  match elems with
  | [] => ""
  | e :: rest => rest.foldl (fun b s => b ++ sep ++ s) e

/-- The operands of `fmt.Sprint` after the first: a space goes between two
operands when neither is a string. -/
def sprintFrom (prevString : Bool) : List Value → String
  | [] => ""
  | a :: rest =>
    (if !a.isString && !prevString then " " else "") ++ a.text ++ sprintFrom a.isString rest

/-- Go `fmt.Sprint(v...)`. -/
def Sprint : List Value → String
  | [] => ""
  | a :: rest => a.text ++ sprintFrom a.isString rest

/-- Go `fmt.Sprintln(v...)`: a space between all operands, a newline at the end. -/
def Sprintln (v : List Value) : String :=
  Join (v.map Value.text) " " ++ "\n"

/-- What a call sees of the Go runtime: `Caller skip` is the file and line of
`runtime.Caller(skip)` as seen from `output`, `none` when the lookup fails
(`ok = false`); `Sprintf` is `fmt.Sprintf` on a format given by the caller. -/
structure Runtime where
  Caller : Int → Option (String × Int)
  Sprintf : String → List Value → String

/-- Index of the last occurrence of the character `sep` in `s`, if any. -/
def lastIndexOf (sep : Char) : List Char → Option Nat
  | [] => none
  | c :: cs =>
    match lastIndexOf sep cs with
    | some i => some (i + 1)
    | none => if c = sep then some 0 else none

/-- Go `strings.LastIndex(s, sep)` for a one-character separator, the use made
of it in `log.go`: the index of the last occurrence, `-1` when there is none. -/
def LastIndex (s : String) (sep : Char) : Int :=
  match lastIndexOf sep s.toList with
  | some i => (i : Int)
  | none => -1

/-! ## The logger -/

/-- Go `tLogger`. `logger` holds, oldest first, the lines handed to
`t.logger.Print`, that is the sink; `buf` holds, oldest first, the lines sent
on the channel and not yet received by the worker; `closed` tells whether the
channel has been closed. The mutex is not modelled. -/
structure tLogger where
  level : LogLevel
  callerLevel : Int
  flag : Int
  logger : List String
  buf : List String
  closed : Bool
deriving DecidableEq, Repr

/-- Capacity of the channel made by `New`: `make(chan string, 128)`. -/
def bufCap : Nat := 128

/-- Value a Go panic is raised with. -/
inductive PanicValue where
  | str (s : String)
  | sendOnClosedChannel
  | closeOfClosedChannel
deriving DecidableEq, Repr

/-- How a call ends: it returns to its caller, the process exits with a status
(`os.Exit`), or a panic is raised. Each carries the logger state at that point. -/
inductive Outcome where
  | returned (t : tLogger)
  | exited (code : Int) (t : tLogger)
  | panicked (v : PanicValue) (t : tLogger)
deriving DecidableEq, Repr

/-- Sequencing: what follows a call that returned. -/
def Outcome.andThen (o : Outcome) (k : tLogger → Outcome) : Outcome :=
  match o with
  | .returned t => k t
  | .exited c t => .exited c t
  | .panicked v t => .panicked v t

/-- Go `New(out, prefix, flag)`: threshold `LOG_DEBUG`, caller depth 2, an empty
channel and nothing written yet. The writer and the line header belong to the
wrapped standard logger. -/
def New (L : Levels) (flag : Int) : tLogger :=
  { level := L.LOG_DEBUG, callerLevel := 2, flag := flag, logger := [], buf := [], closed := false }

/-- Go `t.Level()`. -/
def Level (t : tLogger) : LogLevel := t.level

/-- Go `t.SetLevel(level)`. -/
def SetLevel (t : tLogger) (level : LogLevel) : tLogger := { t with level := level }

/-- Go `t.LevelName(level)`. -/
def LevelName (L : Levels) (level : LogLevel) : String :=
  match L.levelNames level with
  | some n => n
  | none => "^?^"

/-- Go `t.SetCallerLevel(v)`. -/
def SetCallerLevel (t : tLogger) (v : Int) : tLogger := { t with callerLevel := v }

/-- Go `t.logger.Print(s)`: the line goes to the sink. -/
def loggerPrint (t : tLogger) (s : String) : tLogger := { t with logger := t.logger ++ [s] }

/-- Go `t.buf <- s`, taken when the send is accepted: the line joins the tail of
the channel; on a closed channel the send panics. A sender that finds `bufCap`
lines waiting is held until the worker has received one (see `step`). -/
def chanSend (t : tLogger) (s : String) : Outcome :=
  if t.closed then .panicked .sendOnClosedChannel t
  else .returned { t with buf := t.buf ++ [s] }

/-- Go `t.output(level, format, newline, v...)`. -/
def output (L : Levels) (rt : Runtime) (t : tLogger) (level : LogLevel) (format : String)
    (newline : Bool) (v : List Value) : Outcome :=
  if t.level = L.LOG_OFF then .returned t
  else if t.level < level then .returned t
  else
    let fl : String × Int :=
      match rt.Caller t.callerLevel with
      | some r => r
      | none => ("???", 0)
    let s : String :=
      if Int.land t.flag (Int.lor Lshortfile Llongfile) ≠ 0 then
        let file : String :=
          if Int.land t.flag Lshortfile ≠ 0 then
            let pos := LastIndex fl.1 '/' + 1
            String.mk (fl.1.toList.drop pos.toNat)
          else fl.1
        file ++ ":" ++ toString fl.2 ++ " "
      else ""
    let s : String := if level ≠ L.LOG_PRINT then s ++ ("[" ++ LevelName L level ++ "] ") else s
    let formatText : String :=
      if format = "" then Join (v.map Value.text) " "
      else rt.Sprintf format v
    let s : String := s ++ formatText
    let s : String := if newline then s ++ "\n" else s
    if level ≤ L.LOG_PANIC then .returned (loggerPrint t s)
    else chanSend t s

/-! ### The worker and `Flush` -/

/-- One turn of the worker loop `for s := range l.buf { l.logger.Print(s) }`:
the oldest line leaves the channel and is written; `none` on an empty channel. -/
def workerStep (t : tLogger) : Option tLogger :=
  match t.buf with
  | [] => none
  | s :: rest => some { loggerPrint t s with buf := rest }

/-- The worker loop run over the lines `queue` left in a closed channel. -/
def workerLoop (t : tLogger) (queue : List String) : tLogger :=
  match queue with
  | [] => { t with buf := [] }
  | s :: rest => workerLoop { loggerPrint t s with buf := rest } rest

/-- Go `t.Flush()`: `close(t.buf)`, which panics on a closed channel, then
`<-t.close`, which waits until the worker has written what was left in the
channel and has sent its completion signal. -/
def Flush (t : tLogger) : Outcome :=
  if t.closed then .panicked .closeOfClosedChannel t
  else .returned (workerLoop { t with closed := true } t.buf)

/-! ### The public methods -/

def Print (L : Levels) (rt : Runtime) (t : tLogger) (v : List Value) : Outcome :=
  output L rt t L.LOG_PRINT "" false v

def Printf (L : Levels) (rt : Runtime) (t : tLogger) (format : String) (v : List Value) : Outcome :=
  output L rt t L.LOG_PRINT format false v

def Println (L : Levels) (rt : Runtime) (t : tLogger) (v : List Value) : Outcome :=
  output L rt t L.LOG_PRINT "" true v

def Fatal (L : Levels) (rt : Runtime) (t : tLogger) (v : List Value) : Outcome :=
  (output L rt t L.LOG_FATAL "" false v).andThen (fun t1 => .exited 1 t1)

def Fatalf (L : Levels) (rt : Runtime) (t : tLogger) (format : String) (v : List Value) : Outcome :=
  (output L rt t L.LOG_FATAL format false v).andThen (fun t1 => .exited 1 t1)

def Fatalln (L : Levels) (rt : Runtime) (t : tLogger) (v : List Value) : Outcome :=
  (output L rt t L.LOG_FATAL "" true v).andThen (fun t1 => .exited 1 t1)

def Panic (L : Levels) (rt : Runtime) (t : tLogger) (v : List Value) : Outcome :=
  let s := Sprint v
  (output L rt t L.LOG_PANIC "" false [Value.ofString s]).andThen (fun t1 => .panicked (.str s) t1)

def Panicf (L : Levels) (rt : Runtime) (t : tLogger) (format : String) (v : List Value) : Outcome :=
  let s := rt.Sprintf format v
  (output L rt t L.LOG_PANIC "" false [Value.ofString s]).andThen (fun t1 => .panicked (.str s) t1)

def Panicln (L : Levels) (rt : Runtime) (t : tLogger) (v : List Value) : Outcome :=
  let s := Sprintln v
  (output L rt t L.LOG_PANIC "" false [Value.ofString s]).andThen (fun t1 => .panicked (.str s) t1)

def Error (L : Levels) (rt : Runtime) (t : tLogger) (v : List Value) : Outcome :=
  output L rt t L.LOG_ERROR "" false v

def Errorf (L : Levels) (rt : Runtime) (t : tLogger) (format : String) (v : List Value) : Outcome :=
  output L rt t L.LOG_ERROR format false v

def Errorln (L : Levels) (rt : Runtime) (t : tLogger) (v : List Value) : Outcome :=
  output L rt t L.LOG_ERROR "" true v

def Warn (L : Levels) (rt : Runtime) (t : tLogger) (v : List Value) : Outcome :=
  output L rt t L.LOG_WARN "" false v

def Warnf (L : Levels) (rt : Runtime) (t : tLogger) (format : String) (v : List Value) : Outcome :=
  output L rt t L.LOG_WARN format false v

def Warnln (L : Levels) (rt : Runtime) (t : tLogger) (v : List Value) : Outcome :=
  output L rt t L.LOG_WARN "" true v

def Info (L : Levels) (rt : Runtime) (t : tLogger) (v : List Value) : Outcome :=
  output L rt t L.LOG_INFO "" false v

def Infof (L : Levels) (rt : Runtime) (t : tLogger) (format : String) (v : List Value) : Outcome :=
  output L rt t L.LOG_INFO format false v

def Infoln (L : Levels) (rt : Runtime) (t : tLogger) (v : List Value) : Outcome :=
  output L rt t L.LOG_INFO "" true v

def Debug (L : Levels) (rt : Runtime) (t : tLogger) (v : List Value) : Outcome :=
  output L rt t L.LOG_DEBUG "" false v

def Debugf (L : Levels) (rt : Runtime) (t : tLogger) (format : String) (v : List Value) : Outcome :=
  output L rt t L.LOG_DEBUG format false v

def Debugln (L : Levels) (rt : Runtime) (t : tLogger) (v : List Value) : Outcome :=
  output L rt t L.LOG_DEBUG "" true v

/-- Go `t.Output(calldepth, s)`: the outcome of the call and, when it returns,
the error value it returns (`none` for `nil`). -/
def Output (L : Levels) (rt : Runtime) (t : tLogger) (calldepth : Int) (s : String) :
    Outcome × Option String :=
  (Println L rt (SetCallerLevel t calldepth) [Value.ofString s], none)

/-! ### Schedules of the channel -/

/-- One event on the channel: a send of a line by a caller, or a receive by
the worker. -/
inductive Event where
  | send (s : String)
  | receive
deriving DecidableEq, Repr

/-- Effect of one event, `none` when it cannot happen in this state: a send is
accepted only while fewer than `bufCap` lines wait (and the channel is open), a
receive only when a line waits. -/
def step (t : tLogger) : Event → Option tLogger
  | .send s =>
    if t.buf.length < bufCap then
      match chanSend t s with
      | .returned t1 => some t1
      | _ => none
    else none
  | .receive => workerStep t

/-- A sequence of events run from a state. -/
def run (t : tLogger) : List Event → Option tLogger
  | [] => some t
  | e :: es =>
    match step t e with
    | some t1 => run t1 es
    | none => none

/-- Lines sent by a sequence of events, in order. -/
def sentLines : List Event → List String
  | [] => []
  | .send s :: es => s :: sentLines es
  | .receive :: es => sentLines es

/-! ## Vocabulary of the claims

The definitions below follow the words of the specification; the theorems
relate them to `output`. -/

/-- File and line a record is tagged with: the resolved caller, or the sentinel
`???`, line 0, when the lookup fails. -/
def callerSite (rt : Runtime) (t : tLogger) : String × Int :=
  match rt.Caller t.callerLevel with
  | some r => r
  | none => ("???", 0)

/-- The short-file flag is set. -/
def shortFile (t : tLogger) : Prop := Int.land t.flag Lshortfile ≠ 0

/-- The long-file flag is set. -/
def longFile (t : tLogger) : Prop := Int.land t.flag Llongfile ≠ 0

instance (t : tLogger) : Decidable (shortFile t) := inferInstanceAs (Decidable (_ ≠ _))

instance (t : tLogger) : Decidable (longFile t) := inferInstanceAs (Decidable (_ ≠ _))

/-- The part of a path after its last `/`; all of it when it has no `/`. -/
def afterLastSlash : List Char → List Char
  | [] => []
  | c :: cs => if '/' ∈ cs then afterLastSlash cs else if c = '/' then cs else c :: cs

/-- Location tag of section 4.1: the last path segment under short file, the
full path under long file alone, nothing when neither flag is set. -/
def locationTag (rt : Runtime) (t : tLogger) : String :=
  if shortFile t then
    String.mk (afterLastSlash (callerSite rt t).1.toList) ++ ":" ++ toString (callerSite rt t).2 ++ " "
  else if longFile t then
    (callerSite rt t).1 ++ ":" ++ toString (callerSite rt t).2 ++ " "
  else ""

/-- Severity tag: the bracketed level name and a space; empty for the print tier. -/
def levelTag (L : Levels) (level : LogLevel) : String :=
  if level = L.LOG_PRINT then "" else "[" ++ LevelName L level ++ "] "

/-- Texts joined by single spaces; empty for no text. -/
def spaceJoined : List String → String
  | [] => ""
  | [a] => a
  | a :: b :: rest => a ++ " " ++ spaceJoined (b :: rest)

/-- Message body: the arguments in their default text joined by single spaces
when the format is empty, the format applied to the arguments otherwise. -/
def messageBody (rt : Runtime) (format : String) (v : List Value) : String :=
  if format = "" then spaceJoined (v.map Value.text) else rt.Sprintf format v

/-- Line end: a newline for the line variants, nothing otherwise. -/
def lineEnd (newline : Bool) : String := if newline then "\n" else ""

/-- The formatted line of a record. -/
def formatted (L : Levels) (rt : Runtime) (t : tLogger) (level : LogLevel) (format : String)
    (newline : Bool) (v : List Value) : String :=
  locationTag rt t ++ levelTag L level ++ messageBody rt format v ++ lineEnd newline

/-- Routing of a formatted line by `output`: written to the sink at once when
the level is at most `LOG_PANIC`, sent on the channel otherwise. -/
def route (L : Levels) (t : tLogger) (level : LogLevel) (line : String) : Outcome :=
  if level ≤ L.LOG_PANIC then .returned (loggerPrint t line) else chanSend t line

/-- Between the states `t` and `t1` exactly the one line `line` was emitted:
written to the sink or appended to the queue, nothing else changed. -/
def emits (t t1 : tLogger) (line : String) : Prop :=
  t1 = { t with logger := t.logger ++ [line] } ∨ t1 = { t with buf := t.buf ++ [line] }

instance (t t1 : tLogger) (line : String) : Decidable (emits t t1 line) :=
  inferInstanceAs (Decidable (_ ∨ _))

/-- Modelled from the spec: the table `levelNames`, declared outside `log.go`,
has an entry only for named levels ("each severity has a display name") and no
name in it is empty. -/
def Levels.NameTable (L : Levels) : Prop :=
  (∀ l : LogLevel, l ∉ L.thresholds → L.levelNames l = none) ∧
  (∀ (l : LogLevel) (n : String), L.levelNames l = some n → n ≠ "")

/-! ## Sample inputs -/

/-- A runtime in which the caller at depth 2 is `/a/b/c/d.go`, line 23, the
lookup fails at every other depth, and `Sprintf` puts the texts of its
arguments after the format. -/
def sampleRuntime : Runtime where
  Caller := fun skip => if skip = 2 then some ("/a/b/c/d.go", 23) else none
  Sprintf := fun format v => format ++ Join (v.map Value.text) ""

/-- A fresh logger of `stdLevels` with the given flags, set to a threshold. -/
def sampleLogger (flag : Int) (threshold : LogLevel) : tLogger :=
  SetLevel (New stdLevels flag) threshold

/-- A queue of `n` waiting lines. -/
def sampleQueue (n : Nat) : List String := List.replicate n "queued"

/-- A level table in which the print tier is the lowest severity, right above
`OFF`: the alternative to `stdLevels` under which no threshold other than `OFF`
is below `LOG_PRINT`. -/
def printFirstLevels : Levels where
  LOG_OFF := 0
  LOG_PRINT := 1
  LOG_PANIC := 2
  LOG_FATAL := 3
  LOG_ERROR := 4
  LOG_WARN := 5
  LOG_INFO := 6
  LOG_DEBUG := 7
  levelNames := fun l =>
    if l = 2 then some "PANIC" else if l = 3 then some "FATAL"
    else if l = 4 then some "ERROR" else if l = 5 then some "WARN"
    else if l = 6 then some "INFO" else if l = 7 then some "DEBUG" else none

/-! ## Auxiliary facts -/

theorem nat_lor_eq_zero (x y : Nat) : x ||| y = 0 ↔ x = 0 ∧ y = 0 := by
  constructor
  · intro h
    have hb : ∀ i, (x.testBit i || y.testBit i) = false := by
      intro i
      rw [← Nat.testBit_or, h, Nat.zero_testBit]
    constructor
    · apply Nat.eq_of_testBit_eq
      intro i
      have := hb i
      rw [Nat.zero_testBit]
      cases hx : x.testBit i <;> simp_all
    · apply Nat.eq_of_testBit_eq
      intro i
      have := hb i
      rw [Nat.zero_testBit]
      cases hy : y.testBit i <;> simp_all
  · rintro ⟨rfl, rfl⟩
    rfl

theorem nat_ldiff_lor (a b m : Nat) :
    Nat.ldiff (a ||| b) m = Nat.ldiff a m ||| Nat.ldiff b m := by
  apply Nat.eq_of_testBit_eq
  intro i
  simp only [Nat.testBit_ldiff, Nat.testBit_or]
  cases a.testBit i <;> cases b.testBit i <;> cases m.testBit i <;> rfl

theorem land_lor_eq_zero (f : Int) (a b : Nat) :
    Int.land f (Int.lor a b) = 0 ↔ Int.land f a = 0 ∧ Int.land f b = 0 := by
  cases f with
  | ofNat m =>
    show ((m &&& (a ||| b) : Nat) : Int) = 0 ↔
      ((m &&& a : Nat) : Int) = 0 ∧ ((m &&& b : Nat) : Int) = 0
    rw [Nat.and_or_distrib_left]
    simp only [Int.natCast_eq_zero]
    exact nat_lor_eq_zero _ _
  | negSucc m =>
    show ((Nat.ldiff (a ||| b) m : Nat) : Int) = 0 ↔
      ((Nat.ldiff a m : Nat) : Int) = 0 ∧ ((Nat.ldiff b m : Nat) : Int) = 0
    rw [nat_ldiff_lor]
    simp only [Int.natCast_eq_zero]
    exact nat_lor_eq_zero _ _

/-- The test `flag&(Lshortfile|Llongfile) != 0` holds exactly when one of the
two file flags is set. -/
theorem fileFlags_iff (t : tLogger) :
    Int.land t.flag (Int.lor Lshortfile Llongfile) ≠ 0 ↔ shortFile t ∨ longFile t := by
  have h := land_lor_eq_zero t.flag 16 8
  unfold shortFile longFile
  show ¬ Int.land t.flag (Int.lor ((16 : Nat) : Int) ((8 : Nat) : Int)) = 0 ↔
    ¬ Int.land t.flag ((16 : Nat) : Int) = 0 ∨ ¬ Int.land t.flag ((8 : Nat) : Int) = 0
  rw [h]
  tauto

theorem lastIndexOf_none (sep : Char) (l : List Char) :
    lastIndexOf sep l = none ↔ sep ∉ l := by
  induction l with
  | nil => simp [lastIndexOf]
  | cons c cs ih =>
    unfold lastIndexOf
    cases h : lastIndexOf sep cs with
    | some i =>
      have : ¬ sep ∉ cs := by rw [← ih, h]; simp
      simp only [List.mem_cons, not_or]
      constructor
      · intro hh; cases hh
      · intro hh; exact absurd hh.2 this
    | none =>
      have hn : sep ∉ cs := ih.mp h
      by_cases hc : c = sep
      · simp [hc]
      · simp [hc, hn, Ne.symm hc]

/-- Cutting a path at `LastIndex + 1` leaves the part after its last `/`. -/
theorem drop_lastIndexOf (l : List Char) :
    l.drop (match lastIndexOf '/' l with | some i => i + 1 | none => 0) = afterLastSlash l := by
  induction l with
  | nil => simp [lastIndexOf, afterLastSlash]
  | cons c cs ih =>
    unfold lastIndexOf afterLastSlash
    cases h : lastIndexOf '/' cs with
    | some i =>
      have hm : '/' ∈ cs := by
        by_contra hn
        rw [(lastIndexOf_none '/' cs).mpr hn] at h
        cases h
      rw [h] at ih
      simp only [hm, if_true, List.drop_succ_cons]
      exact ih
    | none =>
      have hn : '/' ∉ cs := (lastIndexOf_none '/' cs).mp h
      by_cases hc : c = '/'
      · simp [hc, hn]
      · simp [hc, hn]

theorem cut_eq_afterLastSlash (p : String) :
    String.mk (p.toList.drop (LastIndex p '/' + 1).toNat) = String.mk (afterLastSlash p.toList) := by
  rw [← drop_lastIndexOf p.toList]
  unfold LastIndex
  cases h : lastIndexOf '/' p.toList with
  | some i =>
    have : ((i : Int) + 1).toNat = i + 1 := by omega
    simp only [this]
  | none =>
    have : ((-1 : Int) + 1).toNat = 0 := by decide
    simp only [this]

theorem foldl_join (sep : String) (rest : List String) (e : String) :
    rest.foldl (fun b s => b ++ sep ++ s) e = e ++ rest.foldl (fun b s => b ++ sep ++ s) "" := by
  induction rest generalizing e with
  | nil => simp
  | cons a as ih =>
    simp only [List.foldl_cons]
    rw [ih (e ++ sep ++ a), ih ("" ++ sep ++ a)]
    simp [String.append_assoc]

/-- Go `strings.Join` with a space is the space-joined text. -/
theorem Join_space (l : List String) : Join l " " = spaceJoined l := by
  induction l with
  | nil => rfl
  | cons a as ih =>
    cases as with
    | nil => rfl
    | cons b bs =>
      have h1 : Join (a :: b :: bs) " " = a ++ " " ++ Join (b :: bs) " " := by
        simp only [Join, List.foldl_cons]
        rw [foldl_join " " bs (a ++ " " ++ b), foldl_join " " bs b]
        simp [String.append_assoc]
      rw [h1, ih]
      rfl

/-- The location tag computed by `output` is the one of section 4.1. -/
theorem location_eq (rt : Runtime) (t : tLogger) :
    (if Int.land t.flag (Int.lor Lshortfile Llongfile) ≠ 0 then
        (if Int.land t.flag Lshortfile ≠ 0 then
            String.mk ((callerSite rt t).1.toList.drop (LastIndex (callerSite rt t).1 '/' + 1).toNat)
          else (callerSite rt t).1) ++ ":" ++ toString (callerSite rt t).2 ++ " "
      else "") = locationTag rt t := by
  unfold locationTag
  by_cases hs : shortFile t
  · have hu : Int.land t.flag (Int.lor Lshortfile Llongfile) ≠ 0 :=
      (fileFlags_iff t).mpr (Or.inl hs)
    have hs1 : Int.land t.flag Lshortfile ≠ 0 := hs
    rw [if_pos hu, if_pos hs1, if_pos hs, cut_eq_afterLastSlash]
  · have hs1 : ¬ Int.land t.flag Lshortfile ≠ 0 := hs
    by_cases hl : longFile t
    · have hu : Int.land t.flag (Int.lor Lshortfile Llongfile) ≠ 0 :=
        (fileFlags_iff t).mpr (Or.inr hl)
      rw [if_pos hu, if_neg hs1, if_neg hs, if_pos hl]
    · have hu : ¬ Int.land t.flag (Int.lor Lshortfile Llongfile) ≠ 0 := by
        rw [fileFlags_iff]
        tauto
      rw [if_neg hu, if_neg hs, if_neg hl]

/-- A record is dropped when the threshold is `LOG_OFF`. -/
theorem output_off (L : Levels) (rt : Runtime) (t : tLogger) (level : LogLevel)
    (format : String) (newline : Bool) (v : List Value) (h : t.level = L.LOG_OFF) :
    output L rt t level format newline v = .returned t := by
  unfold output
  rw [if_pos h]

/-- A record is dropped when the threshold is below its severity. -/
theorem output_below (L : Levels) (rt : Runtime) (t : tLogger) (level : LogLevel)
    (format : String) (newline : Bool) (v : List Value) (h : t.level < level) :
    output L rt t level format newline v = .returned t := by
  unfold output
  by_cases h0 : t.level = L.LOG_OFF
  · rw [if_pos h0]
  · rw [if_neg h0, if_pos h]

/-- A record that passes both guards is formatted and routed: written at once
when its level is at most `LOG_PANIC`, sent on the channel otherwise. -/
theorem output_accepted (L : Levels) (rt : Runtime) (t : tLogger) (level : LogLevel)
    (format : String) (newline : Bool) (v : List Value)
    (h0 : t.level ≠ L.LOG_OFF) (h1 : ¬ t.level < level) :
    output L rt t level format newline v =
      if level ≤ L.LOG_PANIC then .returned (loggerPrint t (formatted L rt t level format newline v))
      else chanSend t (formatted L rt t level format newline v) := by
  have hloc := location_eq rt t
  unfold callerSite at hloc
  unfold output
  rw [if_neg h0, if_neg h1]
  simp only []
  rw [hloc]
  have hline : (if newline = true then
        (if level ≠ L.LOG_PRINT then locationTag rt t ++ ("[" ++ LevelName L level ++ "] ")
          else locationTag rt t) ++
          (if format = "" then Join (v.map Value.text) " " else rt.Sprintf format v) ++ "\n"
      else
        (if level ≠ L.LOG_PRINT then locationTag rt t ++ ("[" ++ LevelName L level ++ "] ")
          else locationTag rt t) ++
          (if format = "" then Join (v.map Value.text) " " else rt.Sprintf format v)) =
      formatted L rt t level format newline v := by
    unfold formatted levelTag messageBody lineEnd
    rw [Join_space]
    by_cases hp : level = L.LOG_PRINT <;> cases newline <;> simp [hp]
  rw [hline]

/-- Under the encoding of section 4.2 every severity is above `LOG_OFF`. -/
theorem severity_pos (L : Levels) (hL : L.Ordered) (S : LogLevel) (hS : S ∈ L.severities) :
    L.LOG_OFF < S := by
  obtain ⟨_, h1, h2, h3, h4, h5, h6, h7⟩ := hL
  simp only [Levels.severities, List.mem_cons, List.mem_singleton, List.not_mem_nil, or_false] at hS
  rcases hS with h | h | h | h | h | h | h <;> subst h <;> linarith

/-- Under the encoding of section 4.2 the only severity at or below
`LOG_PANIC` is `LOG_PANIC` itself. -/
theorem severity_le_panic (L : Levels) (hL : L.Ordered) (S : LogLevel) (hS : S ∈ L.severities) :
    S ≤ L.LOG_PANIC ↔ S = L.LOG_PANIC := by
  obtain ⟨_, h1, h2, h3, h4, h5, h6, h7⟩ := hL
  simp only [Levels.severities, List.mem_cons, List.mem_singleton, List.not_mem_nil, or_false] at hS
  constructor
  · intro hle
    rcases hS with h | h | h | h | h | h | h <;> subst h <;> first | rfl | (exfalso; linarith)
  · intro h
    exact le_of_eq h

/-- An accepted send on an open channel appends the line. -/
theorem chanSend_open (t : tLogger) (s : String) (hopen : t.closed = false) :
    chanSend t s = .returned { t with buf := t.buf ++ [s] } := by
  unfold chanSend
  simp [hopen]

theorem logger_append_ne (t : tLogger) (line : String) :
    t ≠ { t with logger := t.logger ++ [line] } := by
  intro h
  have := congrArg (fun x => x.logger.length) h
  simp at this

theorem buf_append_ne (t : tLogger) (line : String) :
    t ≠ { t with buf := t.buf ++ [line] } := by
  intro h
  have := congrArg (fun x => x.buf.length) h
  simp at this

/-- A record at `LOG_PANIC` that is accepted is written to the sink at once. -/
theorem output_panic (L : Levels) (hL : L.Ordered) (rt : Runtime) (t : tLogger)
    (format : String) (newline : Bool) (v : List Value) (hacc : L.LOG_PANIC ≤ t.level) :
    output L rt t L.LOG_PANIC format newline v =
      .returned { t with logger := t.logger ++ [formatted L rt t L.LOG_PANIC format newline v] } := by
  have hpos : L.LOG_OFF < L.LOG_PANIC := hL.2.1
  have h0 : t.level ≠ L.LOG_OFF := by
    intro h
    rw [h] at hacc
    exact absurd hpos (not_lt.mpr hacc)
  rw [output_accepted L rt t L.LOG_PANIC format newline v h0 (not_lt.mpr hacc), if_pos (le_refl _)]
  rfl

/-- A record of a severity above `LOG_PANIC` that is accepted is sent on the
channel. -/
theorem output_queued (L : Levels) (hL : L.Ordered) (rt : Runtime) (t : tLogger) (S : LogLevel)
    (format : String) (newline : Bool) (v : List Value) (hS : L.LOG_PANIC < S)
    (hacc : S ≤ t.level) (hopen : t.closed = false) :
    output L rt t S format newline v =
      .returned { t with buf := t.buf ++ [formatted L rt t S format newline v] } := by
  have hpos : L.LOG_OFF < L.LOG_PANIC := hL.2.1
  have h0 : t.level ≠ L.LOG_OFF := by
    intro h
    rw [h] at hacc
    linarith
  rw [output_accepted L rt t S format newline v h0 (not_lt.mpr hacc), if_neg (not_le.mpr hS)]
  exact chanSend_open t _ hopen

theorem workerLoop_eq (queue : List String) (t : tLogger) (h : t.buf = queue) :
    workerLoop t queue = { t with logger := t.logger ++ queue, buf := [] } := by
  induction queue generalizing t with
  | nil => simp [workerLoop]
  | cons s rest ih =>
    unfold workerLoop
    rw [ih { loggerPrint t s with buf := rest } rfl]
    simp [loggerPrint]

/-- Along a schedule the lines written followed by the lines waiting grow by
exactly the lines sent, and the channel stays open. -/
theorem step_send (t t2 : tLogger) (s : String) (h : step t (.send s) = some t2) :
    t2 = { t with buf := t.buf ++ [s] } := by
  by_cases hroom : t.buf.length < bufCap
  · cases hc : t.closed with
    | true => simp [step, chanSend, hroom, hc] at h
    | false =>
      simp [step, chanSend, hroom, hc] at h
      exact h.symm
  · simp [step, hroom] at h

theorem step_receive (t t2 : tLogger) (h : step t .receive = some t2) :
    ∃ s rest, t.buf = s :: rest ∧ t2 = { t with logger := t.logger ++ [s], buf := rest } := by
  cases hb : t.buf with
  | nil => simp [step, workerStep, hb] at h
  | cons s rest =>
    simp [step, workerStep, hb, loggerPrint] at h
    exact ⟨s, rest, rfl, h.symm⟩

/-- Along a schedule the lines written followed by the lines waiting grow by
exactly the lines sent, and the channel stays as it was. -/
theorem run_invariant (evs : List Event) (t t1 : tLogger) (h : run t evs = some t1) :
    t1.logger ++ t1.buf = t.logger ++ t.buf ++ sentLines evs ∧ t1.closed = t.closed := by
  induction evs generalizing t with
  | nil =>
    simp only [run, Option.some.injEq] at h
    subst h
    simp [sentLines]
  | cons e es ih =>
    unfold run at h
    cases hst : step t e with
    | none =>
      rw [hst] at h
      simp at h
    | some t2 =>
      rw [hst] at h
      simp only at h
      obtain ⟨h1, h2⟩ := ih t2 h
      cases e with
      | send s =>
        have ht2 := step_send t t2 s hst
        subst ht2
        refine ⟨?_, h2⟩
        rw [h1]
        simp [sentLines]
      | receive =>
        obtain ⟨s, rest, hb, ht2⟩ := step_receive t t2 hst
        subst ht2
        refine ⟨?_, h2⟩
        rw [h1, hb]
        simp [sentLines]

/-- An accepted record is formatted as section 4.1 says and routed. -/
theorem output_route (L : Levels) (rt : Runtime) (t : tLogger) (level : LogLevel)
    (format : String) (newline : Bool) (v : List Value)
    (h0 : t.level ≠ L.LOG_OFF) (h1 : ¬ t.level < level) :
    output L rt t level format newline v =
      route L t level (formatted L rt t level format newline v) :=
  output_accepted L rt t level format newline v h0 h1

theorem afterLastSlash_no_slash (l : List Char) : '/' ∉ afterLastSlash l := by
  induction l with
  | nil => simp [afterLastSlash]
  | cons c cs ih =>
    unfold afterLastSlash
    by_cases hm : '/' ∈ cs
    · rw [if_pos hm]
      exact ih
    · rw [if_neg hm]
      by_cases hc : c = '/'
      · rw [if_pos hc]
        exact hm
      · rw [if_neg hc]
        simp only [List.mem_cons, not_or]
        exact ⟨Ne.symm hc, hm⟩

theorem afterLastSlash_split (l : List Char) :
    ('/' ∉ l ∧ afterLastSlash l = l) ∨ ∃ pre, l = pre ++ '/' :: afterLastSlash l := by
  induction l with
  | nil => left; simp [afterLastSlash]
  | cons c cs ih =>
    unfold afterLastSlash
    by_cases hm : '/' ∈ cs
    · rw [if_pos hm]
      right
      rcases ih with ⟨hn, _⟩ | ⟨pre, hpre⟩
      · exact absurd hm hn
      · refine ⟨c :: pre, ?_⟩
        rw [List.cons_append, ← hpre]
    · rw [if_neg hm]
      by_cases hc : c = '/'
      · rw [if_pos hc]
        right
        exact ⟨[], by simp [hc]⟩
      · rw [if_neg hc]
        left
        refine ⟨?_, rfl⟩
        simp only [List.mem_cons, not_or]
        exact ⟨Ne.symm hc, hm⟩

/-- Line of an args-variant call: no format, no line end. -/
theorem formatted_args (L : Levels) (rt : Runtime) (t : tLogger) (S : LogLevel) (v : List Value) :
    formatted L rt t S "" false v =
      locationTag rt t ++ levelTag L S ++ spaceJoined (v.map Value.text) := by
  simp [formatted, messageBody, lineEnd]

/-- An args-variant call of a severity above `LOG_PANIC` that is accepted
returns having emitted its line. -/
theorem args_emitted (L : Levels) (hL : L.Ordered) (rt : Runtime) (t : tLogger) (S : LogLevel)
    (v : List Value) (hS : L.LOG_PANIC < S) (hacc : S ≤ t.level) (hopen : t.closed = false) :
    ∃ t1, output L rt t S "" false v = .returned t1 ∧
      emits t t1 (locationTag rt t ++ levelTag L S ++ spaceJoined (v.map Value.text)) := by
  refine ⟨_, output_queued L hL rt t S "" false v hS hacc hopen, ?_⟩
  right
  rw [formatted_args]

/-- Line of a line-variant call: no format, a newline at the end. -/
theorem formatted_line (L : Levels) (rt : Runtime) (t : tLogger) (S : LogLevel) (v : List Value) :
    formatted L rt t S "" true v =
      locationTag rt t ++ levelTag L S ++ spaceJoined (v.map Value.text) ++ "\n" := by
  simp [formatted, messageBody, lineEnd]

/-- A line-variant call of a severity above `LOG_PANIC` that is accepted
returns having emitted its line. -/
theorem line_emitted (L : Levels) (hL : L.Ordered) (rt : Runtime) (t : tLogger) (S : LogLevel)
    (v : List Value) (hS : L.LOG_PANIC < S) (hacc : S ≤ t.level) (hopen : t.closed = false) :
    ∃ t1, output L rt t S "" true v = .returned t1 ∧
      emits t t1 (locationTag rt t ++ levelTag L S ++ spaceJoined (v.map Value.text) ++ "\n") := by
  refine ⟨_, output_queued L hL rt t S "" true v hS hacc hopen, ?_⟩
  right
  rw [formatted_line]

theorem sprintFrom_no_string (rest : List Value) (h : ∀ a ∈ rest, a.isString = false) :
    sprintFrom false rest =
      if rest = [] then "" else " " ++ spaceJoined (rest.map Value.text) := by
  induction rest with
  | nil => rfl
  | cons a as ih =>
    have ha : a.isString = false := h a (List.mem_cons_self _ _)
    have has : ∀ b ∈ as, b.isString = false := fun b hb => h b (List.mem_cons_of_mem _ hb)
    unfold sprintFrom
    rw [ha, ih has]
    cases as with
    | nil => simp [spaceJoined]
    | cons b bs => simp [spaceJoined, String.append_assoc]

/-- On operands none of which is a string, `fmt.Sprint` joins by single
spaces. -/
theorem Sprint_no_string (v : List Value) (h : ∀ a ∈ v, a.isString = false) :
    Sprint v = spaceJoined (v.map Value.text) := by
  cases v with
  | nil => rfl
  | cons a as =>
    have ha : a.isString = false := h a (List.mem_cons_self _ _)
    have has : ∀ b ∈ as, b.isString = false := fun b hb => h b (List.mem_cons_of_mem _ hb)
    show a.text ++ sprintFrom a.isString as = _
    rw [ha, sprintFrom_no_string as has]
    cases as with
    | nil => simp [spaceJoined]
    | cons b bs => simp [spaceJoined, String.append_assoc]

/-- Go `fmt.Sprintln` is the space-joined text and a newline. -/
theorem Sprintln_eq (v : List Value) : Sprintln v = spaceJoined (v.map Value.text) ++ "\n" := by
  unfold Sprintln
  rw [Join_space]

/-- An accepted call of the panic family writes the location tag, the severity
tag and the one string it was given, and panics with that string. -/
theorem panic_family (L : Levels) (hL : L.Ordered) (rt : Runtime) (t : tLogger) (s : String)
    (hacc : L.LOG_PANIC ≤ t.level) :
    (output L rt t L.LOG_PANIC "" false [Value.ofString s]).andThen
        (fun t1 => .panicked (.str s) t1) =
      .panicked (.str s)
        { t with logger := t.logger ++ [locationTag rt t ++ levelTag L L.LOG_PANIC ++ s] } := by
  rw [output_panic L hL rt t "" false _ hacc, formatted_args]
  rfl

/-- Under the encoding of section 4.2 every named threshold other than
`LOG_PRINT` is below `LOG_PRINT`. -/
theorem below_print (L : Levels) (hL : L.Ordered) (T : LogLevel)
    (hT : T ∈ [L.LOG_OFF, L.LOG_PANIC, L.LOG_FATAL, L.LOG_ERROR, L.LOG_WARN, L.LOG_INFO,
      L.LOG_DEBUG]) : T < L.LOG_PRINT := by
  obtain ⟨_, h1, h2, h3, h4, h5, h6, h7⟩ := hL
  simp only [List.mem_cons, List.mem_singleton, List.not_mem_nil, or_false] at hT
  rcases hT with h | h | h | h | h | h | h <;> subst h <;> linarith

/-- The table of `stdLevels` names only named levels, and none of its names is
empty. -/
theorem stdLevels_nameTable : stdLevels.NameTable := by
  constructor
  · intro l hl
    simp only [Levels.thresholds, Levels.severities, stdLevels, List.mem_cons, List.mem_singleton,
      List.not_mem_nil, or_false, not_or] at hl
    obtain ⟨_, h1, h2, h3, h4, h5, h6, _⟩ := hl
    simp [stdLevels, h1, h2, h3, h4, h5, h6]
  · intro l n hn
    simp only [stdLevels] at hn
    split_ifs at hn <;> cases hn <;> decide

/-- Routing a line on an open channel returns with exactly that line emitted. -/
theorem route_open (L : Levels) (t : tLogger) (level : LogLevel) (line : String)
    (hopen : t.closed = false) :
    ∃ t1, route L t level line = .returned t1 ∧ emits t t1 line := by
  unfold route
  by_cases hp : level ≤ L.LOG_PANIC
  · rw [if_pos hp]
    exact ⟨_, rfl, Or.inl rfl⟩
  · rw [if_neg hp]
    exact ⟨_, chanSend_open t line hopen, Or.inr rfl⟩

/-- On an open channel `output` returns, and the state it returns is the one
it was given or that state with one line emitted. -/
theorem output_returns (L : Levels) (rt : Runtime) (t : tLogger) (level : LogLevel)
    (format : String) (newline : Bool) (v : List Value) (hopen : t.closed = false) :
    ∃ t1, output L rt t level format newline v = .returned t1 ∧
      (t1 = t ∨ emits t t1 (formatted L rt t level format newline v)) := by
  by_cases h0 : t.level = L.LOG_OFF
  · exact ⟨t, output_off L rt t level format newline v h0, Or.inl rfl⟩
  · by_cases h1 : t.level < level
    · exact ⟨t, output_below L rt t level format newline v h1, Or.inl rfl⟩
    · obtain ⟨t1, hr, he⟩ := route_open L t level (formatted L rt t level format newline v) hopen
      exact ⟨t1, (output_route L rt t level format newline v h0 h1).trans hr, Or.inr he⟩

/-- What `output` reads of the runtime is `Sprintf` and the caller at the
logger's caller depth. -/
theorem output_caller_congr (L : Levels) (rt rt1 : Runtime) (t : tLogger) (level : LogLevel)
    (format : String) (newline : Bool) (v : List Value) (hS : rt1.Sprintf = rt.Sprintf)
    (hC : rt1.Caller t.callerLevel = rt.Caller t.callerLevel) :
    output L rt1 t level format newline v = output L rt t level format newline v := by
  unfold output
  rw [hS, hC]

/-- With an empty format `output` does not call `Sprintf`. -/
theorem output_empty_format (L : Levels) (rt : Runtime) (t : tLogger) (level : LogLevel)
    (newline : Bool) (v : List Value) (sprintf : String → List Value → String) :
    output L { rt with Sprintf := sprintf } t level "" newline v =
      output L rt t level "" newline v := by
  unfold output
  simp

/-- A call of `output` at `LOG_PANIC` returns in every state: its line, if any,
goes to the sink and never to the channel. -/
theorem output_panic_returns (L : Levels) (rt : Runtime) (t : tLogger)
    (format : String) (newline : Bool) (v : List Value) :
    ∃ t1, output L rt t L.LOG_PANIC format newline v = .returned t1 := by
  by_cases h0 : t.level = L.LOG_OFF
  · exact ⟨t, output_off L rt t _ format newline v h0⟩
  · by_cases h1 : t.level < L.LOG_PANIC
    · exact ⟨t, output_below L rt t _ format newline v h1⟩
    · refine ⟨loggerPrint t (formatted L rt t L.LOG_PANIC format newline v),
        (output_route L rt t _ format newline v h0 h1).trans ?_⟩
      unfold route
      rw [if_pos (le_refl _)]

/-- A record is dropped when the threshold is `LOG_OFF` or below its severity. -/
theorem output_dropped (L : Levels) (rt : Runtime) (t : tLogger) (level : LogLevel)
    (format : String) (newline : Bool) (v : List Value)
    (h : t.level = L.LOG_OFF ∨ t.level < level) :
    output L rt t level format newline v = .returned t := by
  rcases h with h | h
  · exact output_off L rt t level format newline v h
  · exact output_below L rt t level format newline v h

/-- The state in which `output` returns has the threshold, the caller depth and
the flags of the state it was called on. -/
theorem output_frame (L : Levels) (rt : Runtime) (t t1 : tLogger) (level : LogLevel)
    (format : String) (newline : Bool) (v : List Value)
    (h : output L rt t level format newline v = .returned t1) :
    t1.level = t.level ∧ t1.callerLevel = t.callerLevel ∧ t1.flag = t.flag := by
  by_cases h0 : t.level = L.LOG_OFF
  · rw [output_off L rt t level format newline v h0] at h
    cases h
    exact ⟨rfl, rfl, rfl⟩
  · by_cases h1 : t.level < level
    · rw [output_below L rt t level format newline v h1] at h
      cases h
      exact ⟨rfl, rfl, rfl⟩
    · rw [output_route L rt t level format newline v h0 h1] at h
      unfold route at h
      by_cases hp : level ≤ L.LOG_PANIC
      · rw [if_pos hp] at h
        cases h
        exact ⟨rfl, rfl, rfl⟩
      · rw [if_neg hp] at h
        unfold chanSend at h
        cases hc : t.closed with
        | true =>
          rw [hc] at h
          simp at h
        | false =>
          rw [hc] at h
          simp only [Bool.false_eq_true, if_false] at h
          cases h
          exact ⟨rfl, rfl, rfl⟩

/-- An accepted record of a level at most `LOG_PANIC` is written to the sink
during the call, whatever the channel holds. -/
theorem output_written (L : Levels) (rt : Runtime) (t : tLogger) (S : LogLevel)
    (format : String) (newline : Bool) (v : List Value)
    (h0 : t.level ≠ L.LOG_OFF) (h1 : ¬ t.level < S) (hS : S ≤ L.LOG_PANIC) :
    output L rt t S format newline v =
      .returned { t with logger := t.logger ++ [formatted L rt t S format newline v] } := by
  rw [output_route L rt t S format newline v h0 h1]
  unfold route
  rw [if_pos hS]
  rfl

/-- An accepted record of a level above `LOG_PANIC` is appended to the queue
of an open channel. -/
theorem output_sent (L : Levels) (rt : Runtime) (t : tLogger) (S : LogLevel)
    (format : String) (newline : Bool) (v : List Value)
    (h0 : t.level ≠ L.LOG_OFF) (h1 : ¬ t.level < S) (hS : L.LOG_PANIC < S)
    (hopen : t.closed = false) :
    output L rt t S format newline v =
      .returned { t with buf := t.buf ++ [formatted L rt t S format newline v] } := by
  rw [output_route L rt t S format newline v h0 h1]
  unfold route
  rw [if_neg (not_le.mpr hS)]
  exact chanSend_open t _ hopen

/-- Routing of the two terminal severities, for every level table. An accepted
`LOG_PANIC` record is written to the sink during the call whatever the queue
holds, and `Panic` raises its panic after that. An accepted `LOG_FATAL` record
takes the same branch when `LOG_FATAL ≤ LOG_PANIC`, which is what the comment
on the test `level <= LOG_PANIC` says; when `LOG_PANIC < LOG_FATAL`, as in the
encoding of section 4.2, it is appended to the queue and `Fatal` exits with
status 1 with the line still waiting there. -/
theorem terminal_routing (L : Levels) (rt : Runtime) (t : tLogger)
    (format : String) (newline : Bool) (v : List Value) (h0 : t.level ≠ L.LOG_OFF) :
    (¬ t.level < L.LOG_PANIC →
      output L rt t L.LOG_PANIC format newline v =
        .returned { t with logger := t.logger ++ [formatted L rt t L.LOG_PANIC format newline v] } ∧
      Panic L rt t v =
        .panicked (.str (Sprint v))
          { t with logger := t.logger ++
              [formatted L rt t L.LOG_PANIC "" false [Value.ofString (Sprint v)]] }) ∧
    (L.LOG_FATAL ≤ L.LOG_PANIC → ¬ t.level < L.LOG_FATAL →
      output L rt t L.LOG_FATAL format newline v =
        .returned { t with logger := t.logger ++ [formatted L rt t L.LOG_FATAL format newline v] } ∧
      Fatal L rt t v =
        .exited 1 { t with logger := t.logger ++ [formatted L rt t L.LOG_FATAL "" false v] }) ∧
    (L.LOG_PANIC < L.LOG_FATAL → ¬ t.level < L.LOG_FATAL → t.closed = false →
      output L rt t L.LOG_FATAL format newline v =
        .returned { t with buf := t.buf ++ [formatted L rt t L.LOG_FATAL format newline v] } ∧
      Fatal L rt t v =
        .exited 1 { t with buf := t.buf ++ [formatted L rt t L.LOG_FATAL "" false v] }) := by
  refine ⟨?_, ?_, ?_⟩
  · intro h1
    refine ⟨output_written L rt t _ format newline v h0 h1 (le_refl _), ?_⟩
    unfold Panic
    simp only []
    rw [output_written L rt t _ "" false _ h0 h1 (le_refl _)]
    rfl
  · intro hle h1
    refine ⟨output_written L rt t _ format newline v h0 h1 hle, ?_⟩
    unfold Fatal
    rw [output_written L rt t _ "" false v h0 h1 hle]
    rfl
  · intro hlt h1 hopen
    refine ⟨output_sent L rt t _ format newline v h0 h1 hlt hopen, ?_⟩
    unfold Fatal
    rw [output_sent L rt t _ "" false v h0 h1 hlt hopen]
    rfl

/-- At the threshold `LOG_PANIC` a print-tier call returns with the queue as it
was, for every level table: if `LOG_PRINT` is above `LOG_PANIC` the record is
dropped, and if it is not, the record, when accepted, is written to the sink. -/
theorem print_at_panic_threshold (L : Levels) (rt : Runtime) (t : tLogger)
    (format : String) (newline : Bool) (v : List Value) (h : t.level = L.LOG_PANIC) :
    ∃ t1, output L rt t L.LOG_PRINT format newline v = .returned t1 ∧ t1.buf = t.buf := by
  by_cases h0 : t.level = L.LOG_OFF
  · exact ⟨t, output_off L rt t _ format newline v h0, rfl⟩
  · by_cases h1 : t.level < L.LOG_PRINT
    · exact ⟨t, output_below L rt t _ format newline v h1, rfl⟩
    · have hS : L.LOG_PRINT ≤ L.LOG_PANIC := by
        rw [← h]
        exact not_lt.mp h1
      exact ⟨_, output_written L rt t _ format newline v h0 h1 hS, rfl⟩

/-! ## The claims -/

/-- C1: under the integer encoding `OFF = 0 < PANIC < FATAL < ERROR < WARN <
INFO < DEBUG < PRINT`, a call of `output` at a severity `S` of the seven on a
logger with threshold `T` (any integer, so each of the eight named values) whose
channel is open emits exactly one line, written to the sink or appended to the
queue, if and only if `T ≥ S`; when `T < S` the logger, so the sink and the
queue, is unchanged. -/
theorem output_emits_iff_threshold (L : Levels) (hL : L.Ordered) (rt : Runtime) (t : tLogger)
    (T S : LogLevel) (hS : S ∈ L.severities) (hlevel : t.level = T)
    (hopen : t.closed = false) (format : String) (newline : Bool) (v : List Value) :
    ((∃ line,
        output L rt t S format newline v = .returned { t with logger := t.logger ++ [line] } ∨
        output L rt t S format newline v = .returned { t with buf := t.buf ++ [line] }) ↔
      S ≤ T) ∧
    (T < S → output L rt t S format newline v = .returned t) := by
  have hpos := severity_pos L hL S hS
  have hbelow : T < S → output L rt t S format newline v = .returned t := by
    intro h
    exact output_below L rt t S format newline v (hlevel ▸ h)
  refine ⟨⟨?_, ?_⟩, hbelow⟩
  · rintro ⟨line, h | h⟩
    · by_contra hn
      rw [hbelow (not_le.mp hn)] at h
      exact logger_append_ne t line (Outcome.returned.inj h)
    · by_contra hn
      rw [hbelow (not_le.mp hn)] at h
      exact buf_append_ne t line (Outcome.returned.inj h)
  · intro hle
    have h0 : t.level ≠ L.LOG_OFF := by
      rw [hlevel]
      intro h
      rw [h] at hle
      exact absurd hpos (not_lt.mpr hle)
    have h1 : ¬ t.level < S := by
      rw [hlevel]
      exact not_lt.mpr hle
    refine ⟨formatted L rt t S format newline v, ?_⟩
    rw [output_accepted L rt t S format newline v h0 h1]
    by_cases hp : S ≤ L.LOG_PANIC
    · left
      rw [if_pos hp]
      rfl
    · right
      rw [if_neg hp]
      exact chanSend_open t _ hopen

/-- Witness of C1 at threshold INFO: a WARN record is emitted, a DEBUG record
is not. -/
theorem output_emits_iff_threshold_witness :
    stdLevels.Ordered ∧ (4 : LogLevel) ∈ stdLevels.severities ∧
    (((∃ line,
        output stdLevels sampleRuntime (sampleLogger 0 5) 4 "" false [] =
          .returned { sampleLogger 0 5 with logger := (sampleLogger 0 5).logger ++ [line] } ∨
        output stdLevels sampleRuntime (sampleLogger 0 5) 4 "" false [] =
          .returned { sampleLogger 0 5 with buf := (sampleLogger 0 5).buf ++ [line] }) ↔
      (4 : LogLevel) ≤ 5) ∧
    ((5 : LogLevel) < 4 → output stdLevels sampleRuntime (sampleLogger 0 5) 4 "" false [] =
      .returned (sampleLogger 0 5))) :=
  ⟨by decide, by decide,
    output_emits_iff_threshold stdLevels (by decide) sampleRuntime (sampleLogger 0 5) 5 4
      (by decide) rfl rfl "" false []⟩

/-- C3: under the encoding of section 4.2, an accepted record (threshold at or
above its severity) of severity ERROR, WARN, INFO, DEBUG or PRINT on a logger
whose channel is open has exactly its one formatted line appended at the tail
of the queue; the sink and every other field are unchanged. -/
theorem output_enqueues (L : Levels) (hL : L.Ordered) (rt : Runtime) (t : tLogger) (S : LogLevel)
    (hS : S ∈ [L.LOG_ERROR, L.LOG_WARN, L.LOG_INFO, L.LOG_DEBUG, L.LOG_PRINT])
    (hacc : S ≤ t.level) (hopen : t.closed = false)
    (format : String) (newline : Bool) (v : List Value) :
    output L rt t S format newline v =
      .returned { t with buf := t.buf ++ [formatted L rt t S format newline v] } := by
  have hgt : L.LOG_PANIC < S := by
    obtain ⟨_, h1, h2, h3, h4, h5, h6, h7⟩ := hL
    simp only [List.mem_cons, List.mem_singleton, List.not_mem_nil, or_false] at hS
    rcases hS with h | h | h | h | h <;> subst h <;> linarith
  exact output_queued L hL rt t S format newline v hgt hacc hopen

/-- Witness of C3: an INFO record on a logger at threshold DEBUG whose queue
already holds two lines. -/
theorem output_enqueues_witness :
    stdLevels.Ordered ∧
    output stdLevels sampleRuntime { sampleLogger 0 6 with buf := ["a", "b"], logger := ["z"] }
        5 "" false [Value.ofString "up"] =
      .returned { sampleLogger 0 6 with buf := ["a", "b", "[INFO] up"], logger := ["z"] } :=
  ⟨by decide,
    output_enqueues stdLevels (by decide) sampleRuntime
      { sampleLogger 0 6 with buf := ["a", "b"], logger := ["z"] } 5 (by decide) (by decide) rfl
      "" false [Value.ofString "up"]⟩

/-- C4: in every state reached from a fresh logger by sends (accepted while
fewer than 128 lines wait) and worker receives, in any order, the lines written
to the sink followed by the lines waiting in the queue are exactly the lines
sent so far, in order; so once the queue is empty the sink holds exactly the
lines sent, and `r1, r2, r3` sent in that order and then received are in the
sink as `r1, r2, r3`. -/
theorem worker_preserves_order (L : Levels) (flag : Int) (evs : List Event) (t : tLogger)
    (h : run (New L flag) evs = some t) :
    t.logger ++ t.buf = sentLines evs ∧
    (t.buf = [] → t.logger = sentLines evs) ∧
    (∀ r1 r2 r3 : String,
      run (New L flag) [.send r1, .send r2, .send r3, .receive, .receive, .receive] =
        some { New L flag with logger := [r1, r2, r3] }) := by
  have hinv := (run_invariant evs (New L flag) t h).1
  have hinv1 : t.logger ++ t.buf = sentLines evs := by
    rw [hinv]
    simp [New]
  refine ⟨hinv1, ?_, ?_⟩
  · intro hb
    rw [hb, List.append_nil] at hinv1
    exact hinv1
  · intro r1 r2 r3
    simp [run, step, chanSend, workerStep, loggerPrint, New, bufCap]

/-- Witness of C4: two lines sent, one received, a third sent. -/
theorem worker_preserves_order_witness :
    run (New stdLevels 0) [.send "r1", .send "r2", .receive, .send "r3"] =
      some { New stdLevels 0 with logger := ["r1"], buf := ["r2", "r3"] } ∧
    ["r1"] ++ ["r2", "r3"] = sentLines [.send "r1", .send "r2", .receive, .send "r3"] :=
  ⟨by decide,
    (worker_preserves_order stdLevels 0 [.send "r1", .send "r2", .receive, .send "r3"]
      { New stdLevels 0 with logger := ["r1"], buf := ["r2", "r3"] } (by decide)).1⟩

/-- C5: on a logger on which `Flush` has not been called (its channel is open),
`Flush` returns, the queue is then empty, and the sink has received, after what
it held, exactly the lines that were waiting, each once and in order; when the
state was reached from a fresh logger by sends and worker receives, the sink
then holds exactly the lines sent before the call, in the order sent. -/
theorem flush_complete (t : tLogger) (hopen : t.closed = false) :
    Flush t = .returned { t with closed := true, logger := t.logger ++ t.buf, buf := [] } ∧
    (∀ (L : Levels) (flag : Int) (evs : List Event), run (New L flag) evs = some t →
      Flush t = .returned { t with closed := true, logger := sentLines evs, buf := [] }) := by
  have hf : Flush t = .returned { t with closed := true, logger := t.logger ++ t.buf, buf := [] } := by
    unfold Flush
    rw [hopen]
    simp only [Bool.false_eq_true, if_false]
    rw [workerLoop_eq t.buf { t with closed := true } rfl]
  refine ⟨hf, ?_⟩
  intro L flag evs h
  have hinv := (run_invariant evs (New L flag) t h).1
  rw [hf, hinv]
  simp [New]

/-- Witness of C5: the logger reached by sending two lines, a receive and a
third send has one line written and two waiting; `Flush` leaves all three in
the sink, in the order sent. -/
theorem flush_complete_witness :
    run (New stdLevels 0) [.send "r1", .send "r2", .receive, .send "r3"] =
      some { New stdLevels 0 with logger := ["r1"], buf := ["r2", "r3"] } ∧
    Flush { New stdLevels 0 with logger := ["r1"], buf := ["r2", "r3"] } =
      .returned { New stdLevels 0 with closed := true, logger := ["r1", "r2", "r3"], buf := [] } ∧
    Flush { New stdLevels 0 with logger := ["r1"], buf := ["r2", "r3"] } =
      .returned { New stdLevels 0 with
        closed := true
        logger := sentLines [.send "r1", .send "r2", .receive, .send "r3"]
        buf := [] } :=
  ⟨by decide,
    (flush_complete { New stdLevels 0 with logger := ["r1"], buf := ["r2", "r3"] } rfl).1,
    (flush_complete { New stdLevels 0 with logger := ["r1"], buf := ["r2", "r3"] } rfl).2
      stdLevels 0 [.send "r1", .send "r2", .receive, .send "r3"] (by decide)⟩

/-- C6, counterexample: with the threshold `OFF`, `Fatal("x")` does not return
to its caller but exits with status 1, and `Panic("x")` raises a panic. -/
theorem off_fatal_panic_do_not_return :
    Fatal stdLevels sampleRuntime (sampleLogger 0 0) [Value.ofString "x"] =
      .exited 1 (sampleLogger 0 0) ∧
    Panic stdLevels sampleRuntime (sampleLogger 0 0) [Value.ofString "x"] =
      .panicked (.str "x") (sampleLogger 0 0) ∧
    ¬ (∃ t1, Fatal stdLevels sampleRuntime (sampleLogger 0 0) [Value.ofString "x"] =
      .returned t1) := by
  refine ⟨by decide, by decide, ?_⟩
  rintro ⟨t1, h⟩
  have he : Fatal stdLevels sampleRuntime (sampleLogger 0 0) [Value.ofString "x"] =
      .exited 1 (sampleLogger 0 0) := by decide
  rw [he] at h
  cases h

/-- C6, amended: with the threshold `OFF`, every call of every severity method
in every shape and with every argument list writes nothing, enqueues nothing
and leaves the logger unchanged; the print, error, warn, info and debug methods
return normally, the fatal methods end with exit status 1 and the panic methods
with a panic carrying the formatted message. -/
theorem off_is_silent (L : Levels) (rt : Runtime) (t : tLogger) (hoff : t.level = L.LOG_OFF)
    (format : String) (v : List Value) :
    (Print L rt t v = .returned t ∧ Printf L rt t format v = .returned t ∧
      Println L rt t v = .returned t) ∧
    (Error L rt t v = .returned t ∧ Errorf L rt t format v = .returned t ∧
      Errorln L rt t v = .returned t) ∧
    (Warn L rt t v = .returned t ∧ Warnf L rt t format v = .returned t ∧
      Warnln L rt t v = .returned t) ∧
    (Info L rt t v = .returned t ∧ Infof L rt t format v = .returned t ∧
      Infoln L rt t v = .returned t) ∧
    (Debug L rt t v = .returned t ∧ Debugf L rt t format v = .returned t ∧
      Debugln L rt t v = .returned t) ∧
    (Fatal L rt t v = .exited 1 t ∧ Fatalf L rt t format v = .exited 1 t ∧
      Fatalln L rt t v = .exited 1 t) ∧
    (Panic L rt t v = .panicked (.str (Sprint v)) t ∧
      Panicf L rt t format v = .panicked (.str (rt.Sprintf format v)) t ∧
      Panicln L rt t v = .panicked (.str (Sprintln v)) t) := by
  have h : ∀ level fmt nl w, output L rt t level fmt nl w = .returned t :=
    fun level fmt nl w => output_off L rt t level fmt nl w hoff
  simp only [Print, Printf, Println, Error, Errorf, Errorln, Warn, Warnf, Warnln, Info, Infof,
    Infoln, Debug, Debugf, Debugln, Fatal, Fatalf, Fatalln, Panic, Panicf, Panicln, h,
    Outcome.andThen, and_self]

/-- Witness of C6 (amended): a logger with a line waiting and the threshold
`OFF`. -/
theorem off_is_silent_witness :
    Warnf stdLevels sampleRuntime { sampleLogger 0 0 with buf := ["a"] } "%d" [⟨"3", false⟩] =
      .returned { sampleLogger 0 0 with buf := ["a"] } ∧
    Fatalln stdLevels sampleRuntime { sampleLogger 0 0 with buf := ["a"] } [⟨"3", false⟩] =
      .exited 1 { sampleLogger 0 0 with buf := ["a"] } :=
  ⟨(off_is_silent stdLevels sampleRuntime { sampleLogger 0 0 with buf := ["a"] } rfl
      "%d" [⟨"3", false⟩]).2.2.1.2.1,
    (off_is_silent stdLevels sampleRuntime { sampleLogger 0 0 with buf := ["a"] } rfl
      "%d" [⟨"3", false⟩]).2.2.2.2.2.1.2.2⟩

/-- C7: with the short-file flag set, whatever the long-file flag, for every
resolved caller path `p` and line `n` the line of an accepted record starts
with the part of `p` after its last `/` (all of `p` when it has none), then
`:`, the decimal `n` and one space, followed by the severity tag, the body and
the line end; that file part contains no `/`; and for `/a/b/c/d.go`, line 23,
the location is exactly `d.go:23 `. -/
theorem short_file_location (L : Levels) (rt : Runtime) (t : tLogger) (level : LogLevel)
    (format : String) (newline : Bool) (v : List Value) (p : String) (n : Int)
    (h0 : t.level ≠ L.LOG_OFF) (h1 : ¬ t.level < level)
    (hshort : shortFile t) (hcaller : rt.Caller t.callerLevel = some (p, n)) :
    output L rt t level format newline v =
      route L t level
        (String.mk (afterLastSlash p.toList) ++ ":" ++ toString n ++ " " ++
          levelTag L level ++ messageBody rt format v ++ lineEnd newline) ∧
    '/' ∉ afterLastSlash p.toList ∧
    (('/' ∉ p.toList ∧ afterLastSlash p.toList = p.toList) ∨
      ∃ pre, p.toList = pre ++ '/' :: afterLastSlash p.toList) ∧
    String.mk (afterLastSlash "/a/b/c/d.go".toList) ++ ":" ++ toString (23 : Int) ++ " " =
      "d.go:23 " := by
  refine ⟨?_, afterLastSlash_no_slash _, afterLastSlash_split _, by decide⟩
  rw [output_route L rt t level format newline v h0 h1]
  unfold formatted locationTag callerSite
  rw [if_pos hshort, hcaller]

/-- Witness of C7: both file flags set, caller `/a/b/c/d.go` line 23. -/
theorem short_file_location_witness :
    shortFile (sampleLogger 24 5) ∧ longFile (sampleLogger 24 5) ∧
    output stdLevels sampleRuntime (sampleLogger 24 5) 4 "" false
        [Value.ofString "disk", Value.ofString "low"] =
      .returned { sampleLogger 24 5 with buf := ["d.go:23 [WARN] disk low"] } :=
  ⟨by decide, by decide,
    (short_file_location stdLevels sampleRuntime (sampleLogger 24 5) 4 "" false
      [Value.ofString "disk", Value.ofString "low"] "/a/b/c/d.go" 23
      (by decide) (by decide) (by decide) rfl).1.trans (by decide)⟩

/-- C8: for an accepted record, when the long-file flag is set and the
short-file flag is not, for every resolved caller path `p` and line `n` the
line starts with `p` unmodified, `:`, the decimal `n` and one space; when
neither file flag is set, whatever the other flags, the line has no location at
all: it starts with the bracketed severity name, or with the body for the print
tier. -/
theorem long_file_or_no_location (L : Levels) (rt : Runtime) (t : tLogger) (level : LogLevel)
    (format : String) (newline : Bool) (v : List Value)
    (h0 : t.level ≠ L.LOG_OFF) (h1 : ¬ t.level < level) :
    (∀ (p : String) (n : Int), longFile t → ¬ shortFile t →
      rt.Caller t.callerLevel = some (p, n) →
      output L rt t level format newline v =
        route L t level
          (p ++ ":" ++ toString n ++ " " ++
            levelTag L level ++ messageBody rt format v ++ lineEnd newline)) ∧
    (¬ shortFile t → ¬ longFile t →
      (level ≠ L.LOG_PRINT →
        output L rt t level format newline v =
          route L t level
            ("[" ++ LevelName L level ++ "] " ++ messageBody rt format v ++ lineEnd newline)) ∧
      (level = L.LOG_PRINT →
        output L rt t level format newline v =
          route L t level (messageBody rt format v ++ lineEnd newline))) := by
  have hr := output_route L rt t level format newline v h0 h1
  refine ⟨?_, ?_⟩
  · intro p n hlong hshort hcaller
    rw [hr]
    unfold formatted locationTag callerSite
    rw [if_neg hshort, if_pos hlong, hcaller]
  · intro hshort hlong
    have hloc : locationTag rt t = "" := by
      unfold locationTag
      rw [if_neg hshort, if_neg hlong]
    refine ⟨?_, ?_⟩
    · intro hp
      rw [hr]
      unfold formatted levelTag
      rw [hloc, if_neg hp]
      simp
    · intro hp
      rw [hr]
      unfold formatted levelTag
      rw [hloc, if_pos hp]
      simp

/-- Witness of C8: long file alone gives the full path; the standard flags
(date and time, no file flag) give no location. -/
theorem long_file_or_no_location_witness :
    (longFile (sampleLogger 8 5) ∧ ¬ shortFile (sampleLogger 8 5) ∧
      output stdLevels sampleRuntime (sampleLogger 8 5) 4 "" false [Value.ofString "disk"] =
        .returned { sampleLogger 8 5 with buf := ["/a/b/c/d.go:23 [WARN] disk"] }) ∧
    (¬ shortFile (sampleLogger 3 7) ∧ ¬ longFile (sampleLogger 3 7) ∧
      output stdLevels sampleRuntime (sampleLogger 3 7) 4 "" false [Value.ofString "disk"] =
        .returned { sampleLogger 3 7 with buf := ["[WARN] disk"] } ∧
      output stdLevels sampleRuntime (sampleLogger 3 7) 7 "" false [Value.ofString "disk"] =
        .returned { sampleLogger 3 7 with buf := ["disk"] }) :=
  ⟨⟨by decide, by decide,
      ((long_file_or_no_location stdLevels sampleRuntime (sampleLogger 8 5) 4 "" false
        [Value.ofString "disk"] (by decide) (by decide)).1 "/a/b/c/d.go" 23
        (by decide) (by decide) rfl).trans (by decide)⟩,
    ⟨by decide, by decide,
      (((long_file_or_no_location stdLevels sampleRuntime (sampleLogger 3 7) 4 "" false
        [Value.ofString "disk"] (by decide) (by decide)).2 (by decide) (by decide)).1
        (by decide)).trans (by decide),
      (((long_file_or_no_location stdLevels sampleRuntime (sampleLogger 3 7) 7 "" false
        [Value.ofString "disk"] (by decide) (by decide)).2 (by decide) (by decide)).2
        rfl).trans (by decide)⟩⟩

/-- C9: the line of every accepted record is the location tag, then the
severity tag, then the body, then the line end, where the severity tag is `[`,
the level name, `]` and a space for every severity other than PRINT and is
empty for PRINT. -/
theorem line_layout (L : Levels) (rt : Runtime) (t : tLogger) (level : LogLevel)
    (format : String) (newline : Bool) (v : List Value)
    (h0 : t.level ≠ L.LOG_OFF) (h1 : ¬ t.level < level) :
    output L rt t level format newline v =
      route L t level
        (locationTag rt t ++
          (if level = L.LOG_PRINT then "" else "[" ++ LevelName L level ++ "] ") ++
          messageBody rt format v ++ (if newline then "\n" else "")) := by
  rw [output_route L rt t level format newline v h0 h1]
  rfl

/-- Witness of C9: an ERROR record in the line variant and a PRINT record,
short file set. -/
theorem line_layout_witness :
    output stdLevels sampleRuntime (sampleLogger 16 7) 3 "" true
        [Value.ofString "no", Value.ofString "disk"] =
      .returned { sampleLogger 16 7 with buf := ["d.go:23 [ERROR] no disk\n"] } ∧
    output stdLevels sampleRuntime (sampleLogger 16 7) 7 "" false [Value.ofString "hello"] =
      .returned { sampleLogger 16 7 with buf := ["d.go:23 hello"] } :=
  ⟨(line_layout stdLevels sampleRuntime (sampleLogger 16 7) 3 "" true
      [Value.ofString "no", Value.ofString "disk"] (by decide) (by decide)).trans (by decide),
    (line_layout stdLevels sampleRuntime (sampleLogger 16 7) 7 "" false
      [Value.ofString "hello"] (by decide) (by decide)).trans (by decide)⟩

/-- C10, counterexample: `Panic("disk", "low")` at threshold INFO writes the
line `[PANIC] disklow`; its body is not the arguments joined by single spaces,
which is `disk low`. -/
theorem panic_args_not_space_joined :
    Panic stdLevels sampleRuntime (sampleLogger 0 5) [Value.ofString "disk", Value.ofString "low"] =
      .panicked (.str "disklow") { sampleLogger 0 5 with logger := ["[PANIC] disklow"] } ∧
    spaceJoined ([Value.ofString "disk", Value.ofString "low"].map Value.text) = "disk low" ∧
    "[PANIC] disklow" ≠
      "[PANIC] " ++ spaceJoined ([Value.ofString "disk", Value.ofString "low"].map Value.text) := by
  refine ⟨by decide, by decide, by decide⟩

/-- C10, amended: for the args variants Print, Fatal, Error, Warn, Info and
Debug and every argument list, an accepted call on an open channel emits one
line whose body, after the location and severity tags, is the arguments in
their default text joined by single spaces (empty for no argument), with no
line end; for Panic the body is `fmt.Sprint` of the arguments, which is also the
value of the panic. -/
theorem args_variant_body (L : Levels) (hL : L.Ordered) (rt : Runtime) (t : tLogger)
    (hopen : t.closed = false) (v : List Value) :
    (L.LOG_PRINT ≤ t.level → ∃ t1, Print L rt t v = .returned t1 ∧
      emits t t1 (locationTag rt t ++ levelTag L L.LOG_PRINT ++ spaceJoined (v.map Value.text))) ∧
    (L.LOG_FATAL ≤ t.level → ∃ t1, Fatal L rt t v = .exited 1 t1 ∧
      emits t t1 (locationTag rt t ++ levelTag L L.LOG_FATAL ++ spaceJoined (v.map Value.text))) ∧
    (L.LOG_ERROR ≤ t.level → ∃ t1, Error L rt t v = .returned t1 ∧
      emits t t1 (locationTag rt t ++ levelTag L L.LOG_ERROR ++ spaceJoined (v.map Value.text))) ∧
    (L.LOG_WARN ≤ t.level → ∃ t1, Warn L rt t v = .returned t1 ∧
      emits t t1 (locationTag rt t ++ levelTag L L.LOG_WARN ++ spaceJoined (v.map Value.text))) ∧
    (L.LOG_INFO ≤ t.level → ∃ t1, Info L rt t v = .returned t1 ∧
      emits t t1 (locationTag rt t ++ levelTag L L.LOG_INFO ++ spaceJoined (v.map Value.text))) ∧
    (L.LOG_DEBUG ≤ t.level → ∃ t1, Debug L rt t v = .returned t1 ∧
      emits t t1 (locationTag rt t ++ levelTag L L.LOG_DEBUG ++ spaceJoined (v.map Value.text))) ∧
    (L.LOG_PANIC ≤ t.level → ∃ t1, Panic L rt t v = .panicked (.str (Sprint v)) t1 ∧
      emits t t1 (locationTag rt t ++ levelTag L L.LOG_PANIC ++ Sprint v)) := by
  obtain ⟨_, h1, h2, h3, h4, h5, h6, h7⟩ := id hL
  refine ⟨?_, ?_, ?_, ?_, ?_, ?_, ?_⟩
  · intro hacc
    exact args_emitted L hL rt t L.LOG_PRINT v (by linarith) hacc hopen
  · intro hacc
    obtain ⟨t1, ho, he⟩ := args_emitted L hL rt t L.LOG_FATAL v (by linarith) hacc hopen
    refine ⟨t1, ?_, he⟩
    unfold Fatal
    rw [ho]
    rfl
  · intro hacc
    exact args_emitted L hL rt t L.LOG_ERROR v (by linarith) hacc hopen
  · intro hacc
    exact args_emitted L hL rt t L.LOG_WARN v (by linarith) hacc hopen
  · intro hacc
    exact args_emitted L hL rt t L.LOG_INFO v (by linarith) hacc hopen
  · intro hacc
    exact args_emitted L hL rt t L.LOG_DEBUG v (by linarith) hacc hopen
  · intro hacc
    refine ⟨{ t with logger := t.logger ++
      [formatted L rt t L.LOG_PANIC "" false [Value.ofString (Sprint v)]] }, ?_, ?_⟩
    · unfold Panic
      simp only []
      rw [output_panic L hL rt t "" false _ hacc]
      rfl
    · left
      rw [formatted_args]
      rfl

/-- Witness of C10 (amended): at threshold INFO, `Warn("disk", "low")` emits
`[WARN] disk low` with no line end, `Debug` with the same arguments emits
nothing, and `Panic(3, 4)` writes `[PANIC] 3 4` and panics with `3 4`. -/
theorem args_variant_body_witness :
    stdLevels.Ordered ∧
    (∃ t1, Warn stdLevels sampleRuntime (sampleLogger 0 5)
        [Value.ofString "disk", Value.ofString "low"] = .returned t1 ∧
      emits (sampleLogger 0 5) t1
        (locationTag sampleRuntime (sampleLogger 0 5) ++ levelTag stdLevels stdLevels.LOG_WARN ++
          spaceJoined ([Value.ofString "disk", Value.ofString "low"].map Value.text))) ∧
    locationTag sampleRuntime (sampleLogger 0 5) ++ levelTag stdLevels stdLevels.LOG_WARN ++
        spaceJoined ([Value.ofString "disk", Value.ofString "low"].map Value.text) =
      "[WARN] disk low" ∧
    Debug stdLevels sampleRuntime (sampleLogger 0 5)
        [Value.ofString "disk", Value.ofString "low"] = .returned (sampleLogger 0 5) ∧
    (∃ t1, Panic stdLevels sampleRuntime (sampleLogger 0 5) [⟨"3", false⟩, ⟨"4", false⟩] =
          .panicked (.str (Sprint [⟨"3", false⟩, ⟨"4", false⟩])) t1 ∧
      emits (sampleLogger 0 5) t1
        (locationTag sampleRuntime (sampleLogger 0 5) ++ levelTag stdLevels stdLevels.LOG_PANIC ++
          Sprint [⟨"3", false⟩, ⟨"4", false⟩])) ∧
    locationTag sampleRuntime (sampleLogger 0 5) ++ levelTag stdLevels stdLevels.LOG_PANIC ++
        Sprint [⟨"3", false⟩, ⟨"4", false⟩] = "[PANIC] 3 4" :=
  ⟨by decide,
    (args_variant_body stdLevels (by decide) sampleRuntime (sampleLogger 0 5) rfl
      [Value.ofString "disk", Value.ofString "low"]).2.2.2.1 (by decide),
    by decide, by decide,
    (args_variant_body stdLevels (by decide) sampleRuntime (sampleLogger 0 5) rfl
      [⟨"3", false⟩, ⟨"4", false⟩]).2.2.2.2.2.2 (by decide),
    by decide⟩

/-- C11, counterexample: at threshold INFO, `Panicln("disk", "low")` writes
`[PANIC] disk low` and a newline, while `Panic("disk", "low")` writes
`[PANIC] disklow`; the first is not the second followed by a newline. -/
theorem panicln_not_panic_newline :
    Panic stdLevels sampleRuntime (sampleLogger 0 5) [Value.ofString "disk", Value.ofString "low"] =
      .panicked (.str "disklow") { sampleLogger 0 5 with logger := ["[PANIC] disklow"] } ∧
    Panicln stdLevels sampleRuntime (sampleLogger 0 5)
        [Value.ofString "disk", Value.ofString "low"] =
      .panicked (.str "disk low\n") { sampleLogger 0 5 with logger := ["[PANIC] disk low\n"] } ∧
    "[PANIC] disk low\n" ≠ "[PANIC] disklow" ++ "\n" := by
  refine ⟨by decide, by decide, by decide⟩

/-- C11, amended: for every severity other than panic (print, fatal, error,
warn, info, debug), every logger with an open channel that accepts the record
and every argument list, the line emitted by the line variant is the line
emitted by the args variant with the same arguments followed by exactly one
newline. For panic, `Panicln` emits the location tag, the severity tag, the
arguments joined by single spaces and one newline, while `Panic` emits
`fmt.Sprint` of the arguments after the tags; the two differ by exactly the
newline when no argument is a string. -/
theorem line_variant_adds_newline (L : Levels) (hL : L.Ordered) (rt : Runtime) (t : tLogger)
    (hopen : t.closed = false) (v : List Value) :
    (L.LOG_PRINT ≤ t.level → ∃ t1 t2,
      Print L rt t v = .returned t1 ∧ Println L rt t v = .returned t2 ∧
      emits t t1 (locationTag rt t ++ levelTag L L.LOG_PRINT ++ spaceJoined (v.map Value.text)) ∧
      emits t t2
        (locationTag rt t ++ levelTag L L.LOG_PRINT ++ spaceJoined (v.map Value.text) ++ "\n")) ∧
    (L.LOG_FATAL ≤ t.level → ∃ t1 t2,
      Fatal L rt t v = .exited 1 t1 ∧ Fatalln L rt t v = .exited 1 t2 ∧
      emits t t1 (locationTag rt t ++ levelTag L L.LOG_FATAL ++ spaceJoined (v.map Value.text)) ∧
      emits t t2
        (locationTag rt t ++ levelTag L L.LOG_FATAL ++ spaceJoined (v.map Value.text) ++ "\n")) ∧
    (L.LOG_ERROR ≤ t.level → ∃ t1 t2,
      Error L rt t v = .returned t1 ∧ Errorln L rt t v = .returned t2 ∧
      emits t t1 (locationTag rt t ++ levelTag L L.LOG_ERROR ++ spaceJoined (v.map Value.text)) ∧
      emits t t2
        (locationTag rt t ++ levelTag L L.LOG_ERROR ++ spaceJoined (v.map Value.text) ++ "\n")) ∧
    (L.LOG_WARN ≤ t.level → ∃ t1 t2,
      Warn L rt t v = .returned t1 ∧ Warnln L rt t v = .returned t2 ∧
      emits t t1 (locationTag rt t ++ levelTag L L.LOG_WARN ++ spaceJoined (v.map Value.text)) ∧
      emits t t2
        (locationTag rt t ++ levelTag L L.LOG_WARN ++ spaceJoined (v.map Value.text) ++ "\n")) ∧
    (L.LOG_INFO ≤ t.level → ∃ t1 t2,
      Info L rt t v = .returned t1 ∧ Infoln L rt t v = .returned t2 ∧
      emits t t1 (locationTag rt t ++ levelTag L L.LOG_INFO ++ spaceJoined (v.map Value.text)) ∧
      emits t t2
        (locationTag rt t ++ levelTag L L.LOG_INFO ++ spaceJoined (v.map Value.text) ++ "\n")) ∧
    (L.LOG_DEBUG ≤ t.level → ∃ t1 t2,
      Debug L rt t v = .returned t1 ∧ Debugln L rt t v = .returned t2 ∧
      emits t t1 (locationTag rt t ++ levelTag L L.LOG_DEBUG ++ spaceJoined (v.map Value.text)) ∧
      emits t t2
        (locationTag rt t ++ levelTag L L.LOG_DEBUG ++ spaceJoined (v.map Value.text) ++ "\n")) ∧
    (L.LOG_PANIC ≤ t.level → ∃ t1 t2,
      Panic L rt t v = .panicked (.str (Sprint v)) t1 ∧
      Panicln L rt t v = .panicked (.str (Sprintln v)) t2 ∧
      emits t t1 (locationTag rt t ++ levelTag L L.LOG_PANIC ++ Sprint v) ∧
      emits t t2
        (locationTag rt t ++ levelTag L L.LOG_PANIC ++ spaceJoined (v.map Value.text) ++ "\n") ∧
      ((∀ a ∈ v, a.isString = false) → Sprint v = spaceJoined (v.map Value.text))) := by
  obtain ⟨_, h1, h2, h3, h4, h5, h6, h7⟩ := id hL
  have both : ∀ S : LogLevel, L.LOG_PANIC < S → S ≤ t.level → ∃ t1 t2,
      output L rt t S "" false v = .returned t1 ∧ output L rt t S "" true v = .returned t2 ∧
      emits t t1 (locationTag rt t ++ levelTag L S ++ spaceJoined (v.map Value.text)) ∧
      emits t t2 (locationTag rt t ++ levelTag L S ++ spaceJoined (v.map Value.text) ++ "\n") := by
    intro S hS hacc
    obtain ⟨t1, ho1, he1⟩ := args_emitted L hL rt t S v hS hacc hopen
    obtain ⟨t2, ho2, he2⟩ := line_emitted L hL rt t S v hS hacc hopen
    exact ⟨t1, t2, ho1, ho2, he1, he2⟩
  refine ⟨?_, ?_, ?_, ?_, ?_, ?_, ?_⟩
  · intro hacc
    exact both L.LOG_PRINT (by linarith) hacc
  · intro hacc
    obtain ⟨t1, t2, ho1, ho2, he1, he2⟩ := both L.LOG_FATAL (by linarith) hacc
    refine ⟨t1, t2, ?_, ?_, he1, he2⟩
    · unfold Fatal
      rw [ho1]
      rfl
    · unfold Fatalln
      rw [ho2]
      rfl
  · intro hacc
    exact both L.LOG_ERROR (by linarith) hacc
  · intro hacc
    exact both L.LOG_WARN (by linarith) hacc
  · intro hacc
    exact both L.LOG_INFO (by linarith) hacc
  · intro hacc
    exact both L.LOG_DEBUG (by linarith) hacc
  · intro hacc
    refine ⟨_, _, panic_family L hL rt t (Sprint v) hacc, panic_family L hL rt t (Sprintln v) hacc,
      Or.inl rfl, Or.inl ?_, Sprint_no_string v⟩
    rw [Sprintln_eq, ← String.append_assoc]

/-- Witness of C11 (amended): at threshold INFO, `Warn` and `Warnln` of
`disk`, `low` emit `[WARN] disk low` without and with the newline, and for the
non-string arguments 3, 4 `Panicln` writes the line of `Panic` and a newline. -/
theorem line_variant_adds_newline_witness :
    stdLevels.Ordered ∧
    (∃ t1 t2,
      Warn stdLevels sampleRuntime (sampleLogger 0 5)
        [Value.ofString "disk", Value.ofString "low"] = .returned t1 ∧
      Warnln stdLevels sampleRuntime (sampleLogger 0 5)
        [Value.ofString "disk", Value.ofString "low"] = .returned t2 ∧
      emits (sampleLogger 0 5) t1
        (locationTag sampleRuntime (sampleLogger 0 5) ++ levelTag stdLevels stdLevels.LOG_WARN ++
          spaceJoined ([Value.ofString "disk", Value.ofString "low"].map Value.text)) ∧
      emits (sampleLogger 0 5) t2
        (locationTag sampleRuntime (sampleLogger 0 5) ++ levelTag stdLevels stdLevels.LOG_WARN ++
          spaceJoined ([Value.ofString "disk", Value.ofString "low"].map Value.text) ++ "\n")) ∧
    Warnln stdLevels sampleRuntime (sampleLogger 0 5)
        [Value.ofString "disk", Value.ofString "low"] =
      .returned { sampleLogger 0 5 with buf := ["[WARN] disk low\n"] } ∧
    Sprint [⟨"3", false⟩, ⟨"4", false⟩] =
      spaceJoined ([(⟨"3", false⟩ : Value), ⟨"4", false⟩].map Value.text) ∧
    Panic stdLevels sampleRuntime (sampleLogger 0 5) [⟨"3", false⟩, ⟨"4", false⟩] =
      .panicked (.str "3 4") { sampleLogger 0 5 with logger := ["[PANIC] 3 4"] } ∧
    Panicln stdLevels sampleRuntime (sampleLogger 0 5) [⟨"3", false⟩, ⟨"4", false⟩] =
      .panicked (.str "3 4\n") { sampleLogger 0 5 with logger := ["[PANIC] 3 4\n"] } :=
  ⟨by decide,
    (line_variant_adds_newline stdLevels (by decide) sampleRuntime (sampleLogger 0 5) rfl
      [Value.ofString "disk", Value.ofString "low"]).2.2.2.1 (by decide),
    by decide,
    (Exists.choose_spec (Exists.choose_spec
      ((line_variant_adds_newline stdLevels (by decide) sampleRuntime (sampleLogger 0 5) rfl
        [⟨"3", false⟩, ⟨"4", false⟩]).2.2.2.2.2.2 (by decide)))).2.2.2.2 (by decide),
    by decide, by decide⟩

/-- C12, counterexample: at the threshold PANIC, which is not `OFF`, a print
call is not enqueued, whatever the level table. Under the encoding of section
4.2 `Print("x")` is dropped there, as it is on a freshly constructed logger;
under a table with the print tier lowest it is written to the sink at once and
the queue stays empty; and for no table, runtime, logger at threshold PANIC and
arguments does `Print` return with a line appended to the queue. -/
theorem print_not_enqueued_at_panic :
    Print stdLevels sampleRuntime (sampleLogger 0 1) [Value.ofString "x"] =
      .returned (sampleLogger 0 1) ∧
    Print stdLevels sampleRuntime (New stdLevels 0) [Value.ofString "x"] =
      .returned (New stdLevels 0) ∧
    Print printFirstLevels sampleRuntime (SetLevel (New printFirstLevels 0) 2)
        [Value.ofString "x"] =
      .returned { SetLevel (New printFirstLevels 0) 2 with logger := ["x"] } ∧
    ¬ (∃ (L : Levels) (rt : Runtime) (t : tLogger) (v : List Value) (line : String),
      t.level = L.LOG_PANIC ∧ Print L rt t v = .returned { t with buf := t.buf ++ [line] }) := by
  refine ⟨by decide, by decide, by decide, ?_⟩
  rintro ⟨L, rt, t, v, line, hlevel, hp⟩
  obtain ⟨t1, h1, hbuf⟩ := print_at_panic_threshold L rt t "" false v hlevel
  unfold Print at hp
  rw [h1] at hp
  have := congrArg (fun x => x.buf.length) (Outcome.returned.inj hp)
  simp [hbuf] at this

/-- C12, amended: print-tier records pass the same threshold test as every
other severity. For every level table, a Print, Printf or Println call is
dropped when the threshold is `OFF` or below `LOG_PRINT`, and is otherwise
routed like any record: appended to the queue of an open channel when
`LOG_PRINT` is above `LOG_PANIC`, written to the sink when it is not, so that
at threshold PANIC it is never enqueued. Under the encoding of section 4.2 the
thresholds OFF, PANIC, FATAL, ERROR, WARN, INFO and DEBUG are all below
`LOG_PRINT`, and a freshly constructed logger, whose threshold is DEBUG, drops
the call. -/
theorem print_tier_filtered (L : Levels) (rt : Runtime) (t : tLogger)
    (format : String) (v : List Value) :
    (t.level = L.LOG_OFF ∨ t.level < L.LOG_PRINT →
      Print L rt t v = .returned t ∧ Printf L rt t format v = .returned t ∧
      Println L rt t v = .returned t) ∧
    (t.level ≠ L.LOG_OFF → L.LOG_PRINT ≤ t.level →
      Print L rt t v = route L t L.LOG_PRINT (formatted L rt t L.LOG_PRINT "" false v) ∧
      Printf L rt t format v =
        route L t L.LOG_PRINT (formatted L rt t L.LOG_PRINT format false v) ∧
      Println L rt t v = route L t L.LOG_PRINT (formatted L rt t L.LOG_PRINT "" true v)) ∧
    (L.LOG_PANIC < L.LOG_PRINT → t.level ≠ L.LOG_OFF → L.LOG_PRINT ≤ t.level →
      t.closed = false →
      Print L rt t v =
        .returned { t with buf := t.buf ++ [formatted L rt t L.LOG_PRINT "" false v] } ∧
      Printf L rt t format v =
        .returned { t with buf := t.buf ++ [formatted L rt t L.LOG_PRINT format false v] } ∧
      Println L rt t v =
        .returned { t with buf := t.buf ++ [formatted L rt t L.LOG_PRINT "" true v] }) ∧
    (L.LOG_PRINT ≤ L.LOG_PANIC → t.level ≠ L.LOG_OFF → L.LOG_PRINT ≤ t.level →
      Print L rt t v =
        .returned { t with logger := t.logger ++ [formatted L rt t L.LOG_PRINT "" false v] } ∧
      Printf L rt t format v =
        .returned { t with logger := t.logger ++
          [formatted L rt t L.LOG_PRINT format false v] } ∧
      Println L rt t v =
        .returned { t with logger := t.logger ++ [formatted L rt t L.LOG_PRINT "" true v] }) ∧
    (t.level = L.LOG_PANIC → ∃ t1 t2 t3,
      Print L rt t v = .returned t1 ∧ Printf L rt t format v = .returned t2 ∧
      Println L rt t v = .returned t3 ∧
      t1.buf = t.buf ∧ t2.buf = t.buf ∧ t3.buf = t.buf) ∧
    (L.Ordered →
      (∀ T ∈ [L.LOG_OFF, L.LOG_PANIC, L.LOG_FATAL, L.LOG_ERROR, L.LOG_WARN, L.LOG_INFO,
          L.LOG_DEBUG], T < L.LOG_PRINT) ∧
      (∀ flag : Int,
        Print L rt (New L flag) v = .returned (New L flag) ∧
        Printf L rt (New L flag) format v = .returned (New L flag) ∧
        Println L rt (New L flag) v = .returned (New L flag))) := by
  refine ⟨?_, ?_, ?_, ?_, ?_, ?_⟩
  · intro hdrop
    exact ⟨output_dropped L rt t _ _ _ _ hdrop, output_dropped L rt t _ _ _ _ hdrop,
      output_dropped L rt t _ _ _ _ hdrop⟩
  · intro h0 hacc
    have h1 : ¬ t.level < L.LOG_PRINT := not_lt.mpr hacc
    exact ⟨output_route L rt t _ _ _ _ h0 h1, output_route L rt t _ _ _ _ h0 h1,
      output_route L rt t _ _ _ _ h0 h1⟩
  · intro hgt h0 hacc hopen
    have h1 : ¬ t.level < L.LOG_PRINT := not_lt.mpr hacc
    exact ⟨output_sent L rt t _ _ _ _ h0 h1 hgt hopen, output_sent L rt t _ _ _ _ h0 h1 hgt hopen,
      output_sent L rt t _ _ _ _ h0 h1 hgt hopen⟩
  · intro hle h0 hacc
    have h1 : ¬ t.level < L.LOG_PRINT := not_lt.mpr hacc
    exact ⟨output_written L rt t _ _ _ _ h0 h1 hle, output_written L rt t _ _ _ _ h0 h1 hle,
      output_written L rt t _ _ _ _ h0 h1 hle⟩
  · intro hlevel
    obtain ⟨t1, h1, hb1⟩ := print_at_panic_threshold L rt t "" false v hlevel
    obtain ⟨t2, h2, hb2⟩ := print_at_panic_threshold L rt t format false v hlevel
    obtain ⟨t3, h3, hb3⟩ := print_at_panic_threshold L rt t "" true v hlevel
    exact ⟨t1, t2, t3, h1, h2, h3, hb1, hb2, hb3⟩
  · intro hL
    refine ⟨below_print L hL, ?_⟩
    intro flag
    have hlt : (New L flag).level < L.LOG_PRINT := hL.2.2.2.2.2.2.2
    exact ⟨output_below L rt _ _ _ _ _ hlt, output_below L rt _ _ _ _ _ hlt,
      output_below L rt _ _ _ _ _ hlt⟩

/-- Witness of C12 (amended): under the encoding of section 4.2 `Print("x")` is
enqueued at threshold PRINT and dropped at threshold DEBUG; under the table
with the print tier lowest it is written to the sink at threshold PANIC. -/
theorem print_tier_filtered_witness :
    stdLevels.Ordered ∧
    Print stdLevels sampleRuntime (sampleLogger 0 7) [Value.ofString "x"] =
      .returned { sampleLogger 0 7 with buf := ["x"] } ∧
    Print stdLevels sampleRuntime (sampleLogger 0 6) [Value.ofString "x"] =
      .returned (sampleLogger 0 6) ∧
    Print stdLevels sampleRuntime (New stdLevels 0) [Value.ofString "x"] =
      .returned (New stdLevels 0) ∧
    Print printFirstLevels sampleRuntime (SetLevel (New printFirstLevels 0) 2)
        [Value.ofString "x"] =
      .returned { SetLevel (New printFirstLevels 0) 2 with logger := ["x"] } :=
  ⟨by decide,
    (((print_tier_filtered stdLevels sampleRuntime (sampleLogger 0 7) ""
      [Value.ofString "x"]).2.2.1 (by decide) (by decide) (by decide) rfl).1).trans (by decide),
    ((print_tier_filtered stdLevels sampleRuntime (sampleLogger 0 6) ""
      [Value.ofString "x"]).1 (Or.inr (by decide))).1,
    (((print_tier_filtered stdLevels sampleRuntime (sampleLogger 0 6) ""
      [Value.ofString "x"]).2.2.2.2.2 (by decide)).2 0).1,
    (((print_tier_filtered printFirstLevels sampleRuntime (SetLevel (New printFirstLevels 0) 2) ""
      [Value.ofString "x"]).2.2.2.1 (by decide) (by decide) (by decide)).1).trans (by decide)⟩

/-- C13: `LevelName` is a total function. When the name table has entries only
for named levels and holds no empty name, it returns the sentinel `^?^` for
every integer that is not a named level, negative values included, and what it
returns is never empty; in any case it returns `^?^` where the table has no
entry and the entry where it has one. -/
theorem levelName_total (L : Levels) (hN : L.NameTable) (level : LogLevel) :
    (level ∉ L.thresholds → LevelName L level = "^?^") ∧
    LevelName L level ≠ "" ∧
    (L.levelNames level = none → LevelName L level = "^?^") ∧
    (∀ n, L.levelNames level = some n → LevelName L level = n) := by
  have hnone : L.levelNames level = none → LevelName L level = "^?^" := by
    intro h
    unfold LevelName
    rw [h]
  have hsome : ∀ n, L.levelNames level = some n → LevelName L level = n := by
    intro n h
    unfold LevelName
    rw [h]
  refine ⟨fun h => hnone (hN.1 level h), ?_, hnone, hsome⟩
  cases h : L.levelNames level with
  | none =>
    rw [hnone h]
    decide
  | some n =>
    rw [hsome n h]
    exact hN.2 level n h

/-- Witness of C13: on the table of `stdLevels`, the values -3 and 42 give the
sentinel and WARN gives its name. -/
theorem levelName_total_witness :
    stdLevels.NameTable ∧
    LevelName stdLevels (-3) = "^?^" ∧ LevelName stdLevels 42 = "^?^" ∧
    LevelName stdLevels (-3) ≠ "" ∧ LevelName stdLevels 4 = "WARN" :=
  ⟨stdLevels_nameTable,
    (levelName_total stdLevels stdLevels_nameTable (-3)).1 (by decide),
    (levelName_total stdLevels stdLevels_nameTable 42).1 (by decide),
    (levelName_total stdLevels stdLevels_nameTable (-3)).2.1,
    (levelName_total stdLevels stdLevels_nameTable 4).2.2.2 "WARN" (by decide)⟩

/-- C14: `Output(calldepth, s)` returns the error `nil` whatever the call
depth, the string and the logger, and what it does to the logger is what
`Println(s)` does on the logger with caller depth `calldepth`. On an open
channel it returns to its caller: with the sink and the queue unchanged when
the record is dropped by the threshold, with the one line of `Println(s)`,
located at depth `calldepth`, appended to the queue when it is accepted. -/
theorem output_adapter (L : Levels) (hL : L.Ordered) (rt : Runtime) (t : tLogger)
    (calldepth : Int) (s : String) :
    (Output L rt t calldepth s).2 = none ∧
    (Output L rt t calldepth s).1 =
      Println L rt (SetCallerLevel t calldepth) [Value.ofString s] ∧
    (t.closed = false → ∃ t1, Output L rt t calldepth s = (.returned t1, none)) ∧
    (t.level = L.LOG_OFF ∨ t.level < L.LOG_PRINT →
      Output L rt t calldepth s = (.returned { t with callerLevel := calldepth }, none)) ∧
    (L.LOG_PRINT ≤ t.level → t.closed = false →
      Output L rt t calldepth s =
        (.returned { t with
            callerLevel := calldepth
            buf := t.buf ++ [locationTag rt (SetCallerLevel t calldepth) ++ s ++ "\n"] },
          none)) := by
  refine ⟨rfl, rfl, ?_, ?_, ?_⟩
  · intro hopen
    obtain ⟨t1, h, _⟩ := output_returns L rt (SetCallerLevel t calldepth) L.LOG_PRINT "" true
      [Value.ofString s] hopen
    refine ⟨t1, ?_⟩
    unfold Output Println
    rw [h]
  · intro hdrop
    unfold Output Println
    rcases hdrop with h | h
    · rw [output_off L rt (SetCallerLevel t calldepth) _ _ _ _ h]
      rfl
    · rw [output_below L rt (SetCallerLevel t calldepth) _ _ _ _ h]
      rfl
  · intro hacc hopen
    have hgt : L.LOG_PANIC < L.LOG_PRINT := by
      obtain ⟨_, h1, h2, h3, h4, h5, h6, h7⟩ := hL
      linarith
    unfold Output Println
    rw [output_queued L hL rt (SetCallerLevel t calldepth) L.LOG_PRINT "" true _ hgt hacc hopen,
      formatted_line]
    simp [SetCallerLevel, levelTag, spaceJoined, Value.ofString]

/-- Witness of C14: at threshold PRINT with short file set, `Output(3, "x")`
enqueues the line of `Println("x")` located at depth 3, where the lookup fails;
at threshold DEBUG the record is dropped; both report `nil`. -/
theorem output_adapter_witness :
    stdLevels.Ordered ∧
    Output stdLevels sampleRuntime (sampleLogger 16 7) 3 "x" =
      (.returned { sampleLogger 16 7 with callerLevel := 3, buf := ["???:0 x\n"] }, none) ∧
    Output stdLevels sampleRuntime (sampleLogger 16 6) 3 "x" =
      (.returned { sampleLogger 16 6 with callerLevel := 3 }, none) :=
  ⟨by decide,
    ((output_adapter stdLevels (by decide) sampleRuntime (sampleLogger 16 7) 3 "x").2.2.2.2
      (by decide) rfl).trans (by decide),
    (output_adapter stdLevels (by decide) sampleRuntime (sampleLogger 16 6) 3 "x").2.2.2.1
      (Or.inr (by decide))⟩

/-- C15: when the caller lookup fails on an accepted record, `output` still
emits exactly one line (on an open channel it returns with that line written
or enqueued); with a file flag set the location is exactly `???:0 `, the same
under short file and under long file, and with no file flag there is none. -/
theorem caller_lookup_failure (L : Levels) (rt : Runtime) (t : tLogger) (level : LogLevel)
    (format : String) (newline : Bool) (v : List Value)
    (h0 : t.level ≠ L.LOG_OFF) (h1 : ¬ t.level < level)
    (hfail : rt.Caller t.callerLevel = none) :
    (t.closed = false → ∃ t1, output L rt t level format newline v = .returned t1 ∧
      emits t t1 (locationTag rt t ++ levelTag L level ++ messageBody rt format v ++
        lineEnd newline)) ∧
    (shortFile t ∨ longFile t →
      locationTag rt t = "???:0 " ∧
      output L rt t level format newline v =
        route L t level
          ("???:0 " ++ levelTag L level ++ messageBody rt format v ++ lineEnd newline)) ∧
    (¬ shortFile t → ¬ longFile t →
      output L rt t level format newline v =
        route L t level (levelTag L level ++ messageBody rt format v ++ lineEnd newline)) := by
  have hr := output_route L rt t level format newline v h0 h1
  have hsite : callerSite rt t = ("???", 0) := by
    unfold callerSite
    rw [hfail]
  refine ⟨?_, ?_, ?_⟩
  · intro hopen
    obtain ⟨t1, h, he⟩ := route_open L t level (formatted L rt t level format newline v) hopen
    exact ⟨t1, hr.trans h, he⟩
  · intro hflag
    have hloc : locationTag rt t = "???:0 " := by
      unfold locationTag
      rw [hsite]
      by_cases hs : shortFile t
      · rw [if_pos hs]
        decide
      · rw [if_neg hs]
        have hl : longFile t := hflag.resolve_left hs
        rw [if_pos hl]
        decide
    refine ⟨hloc, ?_⟩
    rw [hr]
    unfold formatted
    rw [hloc]
  · intro hs hl
    rw [hr]
    unfold formatted locationTag
    rw [if_neg hs, if_neg hl]
    simp

/-- Witness of C15: at caller depth 5 the sample lookup fails; under short file
and under long file an INFO record gets the location `???:0 `. -/
theorem caller_lookup_failure_witness :
    sampleRuntime.Caller 5 = none ∧
    output stdLevels sampleRuntime (SetCallerLevel (sampleLogger 16 6) 5) 5 "" false
        [Value.ofString "up"] =
      .returned { SetCallerLevel (sampleLogger 16 6) 5 with buf := ["???:0 [INFO] up"] } ∧
    output stdLevels sampleRuntime (SetCallerLevel (sampleLogger 8 6) 5) 5 "" false
        [Value.ofString "up"] =
      .returned { SetCallerLevel (sampleLogger 8 6) 5 with buf := ["???:0 [INFO] up"] } :=
  ⟨by decide,
    (((caller_lookup_failure stdLevels sampleRuntime (SetCallerLevel (sampleLogger 16 6) 5) 5
      "" false [Value.ofString "up"] (by decide) (by decide) (by decide)).2.1
      (Or.inl (by decide))).2).trans (by decide),
    (((caller_lookup_failure stdLevels sampleRuntime (SetCallerLevel (sampleLogger 8 6) 5) 5
      "" false [Value.ofString "up"] (by decide) (by decide) (by decide)).2.1
      (Or.inr (by decide))).2).trans (by decide)⟩

/-- C16: termination does not depend on filtering. In every state, whatever
the threshold, `Panic`, `Panicf` and `Panicln` end by raising a panic with the
formatted message; on an open channel, whatever the threshold, `Fatal`,
`Fatalf` and `Fatalln` end with exit status 1; and when the record is dropped
(threshold `OFF` or below the severity) they do so with the logger unchanged,
nothing written and nothing enqueued. -/
theorem termination_unconditional (L : Levels) (rt : Runtime) (t : tLogger)
    (format : String) (v : List Value) :
    (∃ t1 t2 t3,
      Panic L rt t v = .panicked (.str (Sprint v)) t1 ∧
      Panicf L rt t format v = .panicked (.str (rt.Sprintf format v)) t2 ∧
      Panicln L rt t v = .panicked (.str (Sprintln v)) t3) ∧
    (t.closed = false → ∃ t1 t2 t3,
      Fatal L rt t v = .exited 1 t1 ∧ Fatalf L rt t format v = .exited 1 t2 ∧
      Fatalln L rt t v = .exited 1 t3) ∧
    (t.level = L.LOG_OFF ∨ t.level < L.LOG_PANIC →
      Panic L rt t v = .panicked (.str (Sprint v)) t ∧
      Panicf L rt t format v = .panicked (.str (rt.Sprintf format v)) t ∧
      Panicln L rt t v = .panicked (.str (Sprintln v)) t) ∧
    (t.level = L.LOG_OFF ∨ t.level < L.LOG_FATAL →
      Fatal L rt t v = .exited 1 t ∧ Fatalf L rt t format v = .exited 1 t ∧
      Fatalln L rt t v = .exited 1 t) := by
  refine ⟨?_, ?_, ?_, ?_⟩
  · obtain ⟨t1, h1⟩ := output_panic_returns L rt t "" false [Value.ofString (Sprint v)]
    obtain ⟨t2, h2⟩ := output_panic_returns L rt t "" false
      [Value.ofString (rt.Sprintf format v)]
    obtain ⟨t3, h3⟩ := output_panic_returns L rt t "" false [Value.ofString (Sprintln v)]
    refine ⟨t1, t2, t3, ?_, ?_, ?_⟩
    · unfold Panic
      simp only []
      rw [h1]
      rfl
    · unfold Panicf
      simp only []
      rw [h2]
      rfl
    · unfold Panicln
      simp only []
      rw [h3]
      rfl
  · intro hopen
    obtain ⟨t1, h1, _⟩ := output_returns L rt t L.LOG_FATAL "" false v hopen
    obtain ⟨t2, h2, _⟩ := output_returns L rt t L.LOG_FATAL format false v hopen
    obtain ⟨t3, h3, _⟩ := output_returns L rt t L.LOG_FATAL "" true v hopen
    refine ⟨t1, t2, t3, ?_, ?_, ?_⟩
    · unfold Fatal
      rw [h1]
      rfl
    · unfold Fatalf
      rw [h2]
      rfl
    · unfold Fatalln
      rw [h3]
      rfl
  · intro hdrop
    have h : ∀ w, output L rt t L.LOG_PANIC "" false w = .returned t :=
      fun w => output_dropped L rt t _ _ _ w hdrop
    simp only [Panic, Panicf, Panicln, h, Outcome.andThen, and_self]
  · intro hdrop
    have h : ∀ fmt nl w, output L rt t L.LOG_FATAL fmt nl w = .returned t :=
      fun fmt nl w => output_dropped L rt t _ fmt nl w hdrop
    simp only [Fatal, Fatalf, Fatalln, h, Outcome.andThen, and_self]

/-- Witness of C16: at threshold PANIC, below FATAL, `Fatal("x")` writes and
enqueues nothing and exits with status 1; at threshold OFF `Panicln("x")`
writes nothing and panics. -/
theorem termination_unconditional_witness :
    Fatal stdLevels sampleRuntime (sampleLogger 0 1) [Value.ofString "x"] =
      .exited 1 (sampleLogger 0 1) ∧
    Panicln stdLevels sampleRuntime (sampleLogger 0 0) [Value.ofString "x"] =
      .panicked (.str (Sprintln [Value.ofString "x"])) (sampleLogger 0 0) ∧
    (∃ t1 t2 t3,
      Fatal stdLevels sampleRuntime (sampleLogger 0 6) [Value.ofString "x"] = .exited 1 t1 ∧
      Fatalf stdLevels sampleRuntime (sampleLogger 0 6) "f" [Value.ofString "x"] = .exited 1 t2 ∧
      Fatalln stdLevels sampleRuntime (sampleLogger 0 6) [Value.ofString "x"] = .exited 1 t3) :=
  ⟨((termination_unconditional stdLevels sampleRuntime (sampleLogger 0 1) ""
      [Value.ofString "x"]).2.2.2 (Or.inr (by decide))).1,
    ((termination_unconditional stdLevels sampleRuntime (sampleLogger 0 0) ""
      [Value.ofString "x"]).2.2.1 (Or.inl rfl)).2.2,
    (termination_unconditional stdLevels sampleRuntime (sampleLogger 0 6) "f"
      [Value.ofString "x"]).2.1 rfl⟩

/-- C17: with an empty format the format variant of every severity other than
panic is the args variant: `Xf("", v...)` does what `X(v...)` does, whatever
`fmt.Sprintf` would make of the empty format, and the line of an accepted
record has the arguments joined by single spaces as its body. -/
theorem empty_format_is_args_variant (L : Levels) (rt : Runtime) (t : tLogger)
    (v : List Value) (sprintf : String → List Value → String) :
    (Printf L { rt with Sprintf := sprintf } t "" v = Print L rt t v ∧
      Fatalf L { rt with Sprintf := sprintf } t "" v = Fatal L rt t v ∧
      Errorf L { rt with Sprintf := sprintf } t "" v = Error L rt t v ∧
      Warnf L { rt with Sprintf := sprintf } t "" v = Warn L rt t v ∧
      Infof L { rt with Sprintf := sprintf } t "" v = Info L rt t v ∧
      Debugf L { rt with Sprintf := sprintf } t "" v = Debug L rt t v) ∧
    (∀ S : LogLevel, t.level ≠ L.LOG_OFF → ¬ t.level < S →
      output L { rt with Sprintf := sprintf } t S "" false v =
        route L t S (locationTag rt t ++ levelTag L S ++ spaceJoined (v.map Value.text))) := by
  have h := fun S => output_empty_format L rt t S false v sprintf
  refine ⟨⟨?_, ?_, ?_, ?_, ?_, ?_⟩, ?_⟩
  · exact h _
  · unfold Fatalf Fatal
    rw [h]
  · exact h _
  · exact h _
  · exact h _
  · exact h _
  · intro S h0 h1
    rw [h S, output_route L rt t S "" false v h0 h1, formatted_args]

/-- Witness of C17: with a `Sprintf` that would turn the empty format and the
arguments `disk`, `low` into `disklow`, `Warnf("", "disk", "low")` at threshold
INFO enqueues `[WARN] disk low`, the line of `Warn("disk", "low")`. -/
theorem empty_format_is_args_variant_witness :
    sampleRuntime.Sprintf "" [Value.ofString "disk", Value.ofString "low"] = "disklow" ∧
    Warnf stdLevels sampleRuntime (sampleLogger 0 5) ""
        [Value.ofString "disk", Value.ofString "low"] =
      .returned { sampleLogger 0 5 with buf := ["[WARN] disk low"] } ∧
    output stdLevels sampleRuntime (sampleLogger 0 5) 4 "" false
        [Value.ofString "disk", Value.ofString "low"] =
      .returned { sampleLogger 0 5 with buf := ["[WARN] disk low"] } :=
  ⟨by decide,
    ((empty_format_is_args_variant stdLevels sampleRuntime (sampleLogger 0 5)
      [Value.ofString "disk", Value.ofString "low"] sampleRuntime.Sprintf).1.2.2.2.1).trans
      (by decide),
    ((empty_format_is_args_variant stdLevels sampleRuntime (sampleLogger 0 5)
      [Value.ofString "disk", Value.ofString "low"] sampleRuntime.Sprintf).2 4
      (by decide) (by decide)).trans (by decide)⟩

/-- C18: for an accepted record of the panic family (threshold at least PANIC,
encoding of section 4.2) the line written to the sink is the location tag,
then `[`, the name of PANIC, `]` and a space, then exactly the string the
panic is raised with: `Sprint`, `Sprintf` or `Sprintln` of the arguments,
computed once. -/
theorem panic_line_is_panic_value (L : Levels) (hL : L.Ordered) (rt : Runtime) (t : tLogger)
    (format : String) (v : List Value) (hacc : L.LOG_PANIC ≤ t.level) :
    Panic L rt t v =
      .panicked (.str (Sprint v))
        { t with logger := t.logger ++
            [locationTag rt t ++ "[" ++ LevelName L L.LOG_PANIC ++ "] " ++ Sprint v] } ∧
    Panicf L rt t format v =
      .panicked (.str (rt.Sprintf format v))
        { t with logger := t.logger ++
            [locationTag rt t ++ "[" ++ LevelName L L.LOG_PANIC ++ "] " ++
              rt.Sprintf format v] } ∧
    Panicln L rt t v =
      .panicked (.str (Sprintln v))
        { t with logger := t.logger ++
            [locationTag rt t ++ "[" ++ LevelName L L.LOG_PANIC ++ "] " ++ Sprintln v] } := by
  have hne : L.LOG_PANIC ≠ L.LOG_PRINT := by
    obtain ⟨_, h1, h2, h3, h4, h5, h6, h7⟩ := hL
    intro h
    linarith
  have htag : ∀ s : String,
      locationTag rt t ++ levelTag L L.LOG_PANIC ++ s =
        locationTag rt t ++ "[" ++ LevelName L L.LOG_PANIC ++ "] " ++ s := by
    intro s
    unfold levelTag
    rw [if_neg hne]
    simp [String.append_assoc]
  refine ⟨?_, ?_, ?_⟩
  · rw [← htag]
    exact panic_family L hL rt t (Sprint v) hacc
  · rw [← htag]
    exact panic_family L hL rt t (rt.Sprintf format v) hacc
  · rw [← htag]
    exact panic_family L hL rt t (Sprintln v) hacc

/-- Witness of C18: `Panic("disk", "low")` with short file set writes
`d.go:23 [PANIC] disklow` and panics with `disklow`. -/
theorem panic_line_is_panic_value_witness :
    stdLevels.Ordered ∧
    Panic stdLevels sampleRuntime (sampleLogger 16 5)
        [Value.ofString "disk", Value.ofString "low"] =
      .panicked (.str "disklow")
        { sampleLogger 16 5 with logger := ["d.go:23 [PANIC] disklow"] } ∧
    Panicln stdLevels sampleRuntime (sampleLogger 16 5)
        [Value.ofString "disk", Value.ofString "low"] =
      .panicked (.str "disk low\n")
        { sampleLogger 16 5 with logger := ["d.go:23 [PANIC] disk low\n"] } :=
  ⟨by decide,
    ((panic_line_is_panic_value stdLevels (by decide) sampleRuntime (sampleLogger 16 5) ""
      [Value.ofString "disk", Value.ofString "low"] (by decide)).1).trans (by decide),
    ((panic_line_is_panic_value stdLevels (by decide) sampleRuntime (sampleLogger 16 5) ""
      [Value.ofString "disk", Value.ofString "low"] (by decide)).2.2).trans (by decide)⟩

/-- C19: `Output(calldepth, s)` leaves the caller depth changed. On an open
channel it returns in a state whose caller depth is `calldepth`, whatever it
was before, and whose threshold and flags are those before the call; a later
call of `output` in that state reads of the call stack only the frame at depth
`calldepth`; a dropped record gives exactly the logger with its caller depth
set to `calldepth`. -/
theorem output_adapter_sets_depth (L : Levels) (rt : Runtime) (t : tLogger)
    (calldepth : Int) (s : String) (hopen : t.closed = false) :
    ∃ t1, Output L rt t calldepth s = (.returned t1, none) ∧
      t1.callerLevel = calldepth ∧ t1.level = t.level ∧ t1.flag = t.flag ∧
      callerSite rt t1 =
        (match rt.Caller calldepth with
          | some r => r
          | none => ("???", 0)) ∧
      (∀ (rt1 : Runtime) (level : LogLevel) (format : String) (newline : Bool) (v : List Value),
        rt1.Sprintf = rt.Sprintf → rt1.Caller calldepth = rt.Caller calldepth →
        output L rt1 t1 level format newline v = output L rt t1 level format newline v) ∧
      (t.level = L.LOG_OFF ∨ t.level < L.LOG_PRINT → t1 = { t with callerLevel := calldepth }) := by
  obtain ⟨t1, h, _⟩ := output_returns L rt (SetCallerLevel t calldepth) L.LOG_PRINT "" true
    [Value.ofString s] hopen
  obtain ⟨hlev, hdepth, hflag⟩ := output_frame L rt _ t1 _ _ _ _ h
  have hd : t1.callerLevel = calldepth := hdepth
  refine ⟨t1, ?_, hd, hlev, hflag, ?_, ?_, ?_⟩
  · unfold Output Println
    rw [h]
  · unfold callerSite
    rw [hd]
  · intro rt1 level format newline v hS hC
    exact output_caller_congr L rt rt1 t1 level format newline v hS (by rw [hd]; exact hC)
  · intro hdrop
    have hdrop1 : (SetCallerLevel t calldepth).level = L.LOG_OFF ∨
        (SetCallerLevel t calldepth).level < L.LOG_PRINT := hdrop
    rw [output_dropped L rt _ _ _ _ _ hdrop1] at h
    cases h
    rfl

/-- Witness of C19: on a fresh logger (caller depth 2, threshold DEBUG, so the
record is dropped) `Output(3, "x")` leaves the caller depth at 3; a later INFO
record under short file is then located at depth 3, where the sample lookup
fails, instead of at `d.go:23`. -/
theorem output_adapter_sets_depth_witness :
    (New stdLevels 16).callerLevel = 2 ∧
    (∃ t1, Output stdLevels sampleRuntime (New stdLevels 16) 3 "x" = (.returned t1, none) ∧
      t1.callerLevel = 3) ∧
    Output stdLevels sampleRuntime (New stdLevels 16) 3 "x" =
      (.returned { New stdLevels 16 with callerLevel := 3 }, none) ∧
    Info stdLevels sampleRuntime (New stdLevels 16) [Value.ofString "up"] =
      .returned { New stdLevels 16 with buf := ["d.go:23 [INFO] up"] } ∧
    Info stdLevels sampleRuntime { New stdLevels 16 with callerLevel := 3 }
        [Value.ofString "up"] =
      .returned { New stdLevels 16 with callerLevel := 3, buf := ["???:0 [INFO] up"] } :=
  ⟨rfl,
    (output_adapter_sets_depth stdLevels sampleRuntime (New stdLevels 16) 3 "x" rfl).imp
      (fun _ h => ⟨h.1, h.2.1⟩),
    by decide, by decide, by decide⟩

end Log
